import Mathlib

/-!
Shallow embedding of the blindodon `mastodon-core` IPC request-routing and
session/client-lifecycle layer.

Sources embedded:
- `src/mastodon-core/src/models/ipc_message.rs` (message envelope, error codes, method names)
- `src/mastodon-core/src/api/client.rs` (`MastodonClient`: OAuth flow, `normalize_url`,
  the process-wide `PENDING_OAUTH` slot)
- `src/mastodon-core/src/cache/mod.rs` (`CacheManager`: account and settings tables)
- `src/mastodon-core/src/ipc/handler.rs` (`MessageHandler`: dispatch and all handlers)
- `src/mastodon-core/src/ipc/server.rs` (per-connection read loop)

External effects (network calls through the megalodon library, SQLite success or
failure of each statement, clocks and UUIDs) are supplied by an explicit
environment (`Env`) and a database outcome oracle (`DbOracle`); the remote call
results that the router merely forwards are abstracted as their serialized JSON
payloads. Every state mutation performed by the core itself is modelled
explicitly and threaded through a `World` value.
-/

set_option linter.unusedVariables false
set_option linter.unusedTactic false
set_option linter.unreachableTactic false

/-- JSON values, modelling `serde_json::Value`. Numbers are modelled as `Int`
(no claim depends on floating-point numerics). -/
inductive Json where
  | null : Json
  | bool (b : Bool) : Json
  | str (s : String) : Json
  | num (n : Int) : Json
  | arr (xs : List Json) : Json
  | obj (fields : List (String × Json)) : Json

/-- `Value::get(key)` on a JSON object: first field with the given key. -/
def Json.get? (j : Json) (key : String) : Option Json :=
  match j with
  | .obj fields => (fields.find? (fun f => f.1 == key)).map (·.2)
  | _ => none

/-- `Value::as_str()`. -/
def Json.asStr? : Json → Option String
  | .str s => some s
  | _ => none

/-- `Value::as_bool()`. -/
def Json.asBool? : Json → Option Bool
  | .bool b => some b
  | _ => none

/-- `msg.params.get(k).and_then(|v| v.as_str())`, the parameter-extraction
pattern used throughout `handler.rs`. -/
def paramStr (params : Option Json) (key : String) : Option String :=
  params.bind (fun p => (p.get? key).bind Json.asStr?)

/-- `params.get(k).and_then(|v| v.as_bool())`. -/
def paramBool (params : Option Json) (key : String) : Option Bool :=
  params.bind (fun p => (p.get? key).bind Json.asBool?)

/-- `MessageType` from `models/ipc_message.rs`. -/
inductive MessageType where
  | Request : MessageType
  | Response : MessageType
  | Event : MessageType
deriving DecidableEq

/-- `IpcError` from `models/ipc_message.rs`. -/
structure IpcError where
  code : Int
  message : String
  data : Option Json

/-- `IpcMessage` from `models/ipc_message.rs`. -/
structure IpcMessage where
  id : String
  message_type : MessageType
  method : Option String
  params : Option Json
  result : Option Json
  error : Option IpcError

/-- `IpcError::new`. -/
def IpcError.new (code : Int) (message : String) : IpcError :=
  { code := code, message := message, data := none }

/-- `IpcMessage::response_ok`. -/
def IpcMessage.response_ok (id : String) (result : Json) : IpcMessage :=
  { id := id, message_type := MessageType.Response, method := none,
    params := none, result := some result, error := none }

/-- `IpcMessage::response_err`. -/
def IpcMessage.response_err (id : String) (error : IpcError) : IpcMessage :=
  { id := id, message_type := MessageType.Response, method := none,
    params := none, result := none, error := some error }

-- `error_codes` from `models/ipc_message.rs`.
namespace error_codes

def PARSE_ERROR : Int := -32700
def INVALID_REQUEST : Int := -32600
def METHOD_NOT_FOUND : Int := -32601
def INVALID_PARAMS : Int := -32602
def INTERNAL_ERROR : Int := -32603

def NOT_AUTHENTICATED : Int := -1001
def RATE_LIMITED : Int := -1002
def NETWORK_ERROR : Int := -1003
def API_ERROR : Int := -1004
def ENCRYPTION_ERROR : Int := -1005

end error_codes

-- `methods` from `models/ipc_message.rs`.
namespace methods

def AUTH_START : String := "auth.start"
def AUTH_CALLBACK : String := "auth.callback"
def AUTH_LOGOUT : String := "auth.logout"
def AUTH_GET_ACCOUNTS : String := "auth.get_accounts"
def AUTH_SWITCH_ACCOUNT : String := "auth.switch_account"
def AUTH_DELETE_ACCOUNT : String := "auth.delete_account"
def SETTINGS_GET : String := "settings.get"
def SETTINGS_SET : String := "settings.set"
def SETTINGS_GET_ALL : String := "settings.get_all"
def TIMELINE_GET : String := "timeline.get"
def POST_CREATE : String := "post.create"
def POST_BOOST : String := "post.boost"
def POST_UNBOOST : String := "post.unboost"
def POST_FAVOURITE : String := "post.favourite"
def POST_UNFAVOURITE : String := "post.unfavourite"
def NOTIFICATIONS_GET : String := "notifications.get"
def NOTIFICATIONS_CLEAR : String := "notifications.clear"
def NOTIFICATIONS_DISMISS : String := "notifications.dismiss"
def MEDIA_UPLOAD : String := "media.upload"
def INSTANCE_GET : String := "instance.get"
def PING : String := "ping"
def SHUTDOWN : String := "shutdown"

end methods

/-- The fields of `User` (`models/user.rs`) that the core layer reads
(`username`, `acct`, `display_name`, `avatar`) plus its identifying fields;
the remaining profile fields are never inspected by the router or session
manager and are carried opaquely by the remote-call abstraction. -/
structure User where
  id : String
  username : String
  acct : String
  display_name : String
  avatar : String
deriving DecidableEq

/-- `StoredAccount` from `models/account.rs`. `DateTime<Utc>` instants are
modelled as abstract `Nat` timestamps. -/
structure StoredAccount where
  id : String
  instance_url : String
  username : String
  acct : String
  display_name : String
  access_token : String
  refresh_token : Option String
  token_expires_at : Option Nat
  added_at : Nat
  last_used_at : Nat
  is_default : Bool
  avatar_url : Option String
  blindodon_pm_private_key : Option String
  blindodon_pm_public_key : Option String
deriving DecidableEq

/-- `OAuthAppData` from `api/client.rs`: the contents of the process-wide
`PENDING_OAUTH` single slot. -/
structure OAuthAppData where
  client_id : String
  client_secret : String
  instance_url : String
deriving DecidableEq

/-- `MastodonClient` from `api/client.rs`. The boxed megalodon client object
is fully determined by the pair (instance url, access token) it was generated
from, so the handle is modelled as that pair. -/
structure MastodonClient where
  instance_url : String
  access_token : String
deriving DecidableEq

/-- `AuthResponse` from `models/account.rs`. -/
structure AuthResponse where
  auth_url : String
  state : String
deriving DecidableEq

/-- `TimelineType` from `models/timeline.rs`. -/
inductive TimelineType where
  | Home : TimelineType
  | Local : TimelineType
  | Federated : TimelineType
  | Notifications : TimelineType
  | Direct : TimelineType
  | User (user_id : String) : TimelineType
  | Hashtag (tag : String) : TimelineType
  | List (list_id : String) : TimelineType
  | Bookmarks : TimelineType
  | Favourites : TimelineType
  | Trending : TimelineType
  | Search (query : String) : TimelineType
deriving DecidableEq

/-- `TimelineRequest` from `models/timeline.rs`. -/
structure TimelineRequest where
  timeline_type : TimelineType
  limit : Option Nat
  max_id : Option String
  since_id : Option String
  min_id : Option String
deriving DecidableEq

/-- `Visibility` from `models/post.rs`. -/
inductive Visibility where
  | Public : Visibility
  | Unlisted : Visibility
  | Private : Visibility
  | Direct : Visibility
deriving DecidableEq

/-- `NewPoll` from `models/post.rs`. -/
structure NewPoll where
  options : List String
  expires_in : Nat
  multiple : Bool
  hide_totals : Bool
deriving DecidableEq

/-- `NewPost` from `models/post.rs`. The `scheduled_at` timestamp is carried
as its wire string. -/
structure NewPost where
  content : String
  spoiler_text : Option String
  visibility : Visibility
  sensitive : Bool
  language : Option String
  in_reply_to_id : Option String
  media_ids : List String
  poll : Option NewPoll
  scheduled_at : Option String
  blindodon_pm : Bool
deriving DecidableEq

/-- `NotificationType` from `models/notification.rs`. -/
inductive NotificationType where
  | Mention | Reblog | Favourite | Follow | FollowRequest
  | Poll | Update | AdminSignUp | AdminReport | SeveredRelationships
deriving DecidableEq

/-- `NotificationRequest` from `models/notification.rs`. -/
structure NotificationRequest where
  max_id : Option String
  since_id : Option String
  min_id : Option String
  limit : Option Nat
  types : Option (List NotificationType)
  exclude_types : Option (List NotificationType)
deriving DecidableEq

/-- `NotificationRequest::default()` (all-`None` record, from `#[derive(Default)]`). -/
def NotificationRequest.default : NotificationRequest :=
  { max_id := none, since_id := none, min_id := none,
    limit := none, types := none, exclude_types := none }

/-- `MediaFocus` from `models/media.rs`. The two `f64` coordinates are
abstracted as integers; they are only formatted into a query string for the
remote call, which no claim inspects. -/
structure MediaFocus where
  x : Int
  y : Int
deriving DecidableEq

/-- `MediaUploadRequest` from `models/media.rs`. -/
structure MediaUploadRequest where
  file_path : String
  description : Option String
  focus : Option MediaFocus
deriving DecidableEq

-- ===== serde_json deserialization models =====

/-- serde: read an optional string field (`Option<String>`; absent and `null`
both give `None`, any other non-string value is a type error). -/
def Json.optStrField (j : Json) (k : String) : Except String (Option String) :=
  match j.get? k with
  | none => .ok none
  | some .null => .ok none
  | some (.str s) => .ok (some s)
  | some _ => .error ("invalid type: field " ++ k)

/-- serde: read an optional unsigned-integer field (`Option<u32>` / `Option<u64>`). -/
def Json.optNatField (j : Json) (k : String) : Except String (Option Nat) :=
  match j.get? k with
  | none => .ok none
  | some .null => .ok none
  | some (.num n) => if 0 ≤ n then .ok (some n.toNat) else .error ("invalid value: field " ++ k)
  | some _ => .error ("invalid type: field " ++ k)

/-- serde: read a required string field. -/
def Json.reqStrField (j : Json) (k : String) : Except String String :=
  match j.get? k with
  | some (.str s) => .ok s
  | some _ => .error ("invalid type: field " ++ k)
  | none => .error ("missing field " ++ k)

/-- serde: read a required boolean field. -/
def Json.reqBoolField (j : Json) (k : String) : Except String Bool :=
  match j.get? k with
  | some (.bool b) => .ok b
  | some _ => .error ("invalid type: field " ++ k)
  | none => .error ("missing field " ++ k)

/-- serde: read a required unsigned-integer field. -/
def Json.reqNatField (j : Json) (k : String) : Except String Nat :=
  match j.get? k with
  | some (.num n) => if 0 ≤ n then .ok n.toNat else .error ("invalid value: field " ++ k)
  | some _ => .error ("invalid type: field " ++ k)
  | none => .error ("missing field " ++ k)

/-- serde: a `Vec<String>` value. -/
def Json.asStrList : Json → Except String (List String)
  | .arr xs => xs.foldr (fun x (acc : Except String (List String)) =>
      match x, acc with
      | .str s, .ok l => .ok (s :: l)
      | _, .error e => .error e
      | _, _ => .error "invalid type: expected string") (.ok [])
  | _ => .error "invalid type: expected array"

/-- serde (externally tagged, `rename_all = "snake_case"`):
`TimelineType` deserialization from `models/timeline.rs`. -/
def TimelineType.fromJson : Json → Except String TimelineType
  | .str "home" => .ok .Home
  | .str "local" => .ok .Local
  | .str "federated" => .ok .Federated
  | .str "notifications" => .ok .Notifications
  | .str "direct" => .ok .Direct
  | .str "bookmarks" => .ok .Bookmarks
  | .str "favourites" => .ok .Favourites
  | .str "trending" => .ok .Trending
  | .obj [("user", payload)] => (payload.reqStrField "user_id").map TimelineType.User
  | .obj [("hashtag", payload)] => (payload.reqStrField "tag").map TimelineType.Hashtag
  | .obj [("list", payload)] => (payload.reqStrField "list_id").map TimelineType.List
  | .obj [("search", payload)] => (payload.reqStrField "query").map TimelineType.Search
  | _ => .error "unknown variant of TimelineType"

/-- serde: `TimelineRequest` deserialization
(`serde_json::from_value::<TimelineRequest>` in `handle_timeline_get`). -/
def TimelineRequest.fromJson (j : Json) : Except String TimelineRequest := do
  let tt ← match j.get? "timeline_type" with
    | some v => TimelineType.fromJson v
    | none => .error "missing field timeline_type"
  let limit ← j.optNatField "limit"
  let max_id ← j.optStrField "max_id"
  let since_id ← j.optStrField "since_id"
  let min_id ← j.optStrField "min_id"
  .ok { timeline_type := tt, limit := limit, max_id := max_id,
        since_id := since_id, min_id := min_id }

/-- serde (`rename_all = "snake_case"`): `Visibility` deserialization. -/
def Visibility.fromJson : Json → Except String Visibility
  | .str "public" => .ok .Public
  | .str "unlisted" => .ok .Unlisted
  | .str "private" => .ok .Private
  | .str "direct" => .ok .Direct
  | _ => .error "unknown variant of Visibility"

/-- serde: `NewPoll` deserialization. -/
def NewPoll.fromJson (j : Json) : Except String NewPoll := do
  let options ← match j.get? "options" with
    | some v => v.asStrList
    | none => .error "missing field options"
  let expires_in ← j.reqNatField "expires_in"
  let multiple ← j.reqBoolField "multiple"
  let hide_totals ← j.reqBoolField "hide_totals"
  .ok { options := options, expires_in := expires_in,
        multiple := multiple, hide_totals := hide_totals }

/-- serde: `NewPost` deserialization
(`serde_json::from_value::<NewPost>` in `handle_post_create`);
`blindodon_pm` carries `#[serde(default)]`. -/
def NewPost.fromJson (j : Json) : Except String NewPost := do
  let content ← j.reqStrField "content"
  let spoiler_text ← j.optStrField "spoiler_text"
  let visibility ← match j.get? "visibility" with
    | some v => Visibility.fromJson v
    | none => .error "missing field visibility"
  let sensitive ← j.reqBoolField "sensitive"
  let language ← j.optStrField "language"
  let in_reply_to_id ← j.optStrField "in_reply_to_id"
  let media_ids ← match j.get? "media_ids" with
    | some v => v.asStrList
    | none => .error "missing field media_ids"
  let poll ← match j.get? "poll" with
    | none => .ok none
    | some .null => .ok none
    | some v => (NewPoll.fromJson v).map some
  let scheduled_at ← j.optStrField "scheduled_at"
  let blindodon_pm ← match j.get? "blindodon_pm" with
    | none => .ok false
    | some (.bool b) => .ok b
    | some _ => .error "invalid type: field blindodon_pm"
  .ok { content := content, spoiler_text := spoiler_text, visibility := visibility,
        sensitive := sensitive, language := language, in_reply_to_id := in_reply_to_id,
        media_ids := media_ids, poll := poll, scheduled_at := scheduled_at,
        blindodon_pm := blindodon_pm }

/-- serde (`rename_all = "snake_case"`): `NotificationType` deserialization. -/
def NotificationType.fromJson : Json → Except String NotificationType
  | .str "mention" => .ok .Mention
  | .str "reblog" => .ok .Reblog
  | .str "favourite" => .ok .Favourite
  | .str "follow" => .ok .Follow
  | .str "follow_request" => .ok .FollowRequest
  | .str "poll" => .ok .Poll
  | .str "update" => .ok .Update
  | .str "admin_sign_up" => .ok .AdminSignUp
  | .str "admin_report" => .ok .AdminReport
  | .str "severed_relationships" => .ok .SeveredRelationships
  | _ => .error "unknown variant of NotificationType"

/-- serde: an optional `Vec<NotificationType>` field. -/
def Json.optNotifTypesField (j : Json) (k : String) :
    Except String (Option (List NotificationType)) :=
  match j.get? k with
  | none => .ok none
  | some .null => .ok none
  | some (.arr xs) =>
    (xs.foldr (fun x (acc : Except String (List NotificationType)) =>
      match NotificationType.fromJson x, acc with
      | .ok t, .ok l => .ok (t :: l)
      | .error e, _ => .error e
      | _, .error e => .error e) (.ok [])).map some
  | some _ => .error ("invalid type: field " ++ k)

/-- serde: `NotificationRequest` deserialization
(`serde_json::from_value::<NotificationRequest>` in `handle_notifications_get`). -/
def NotificationRequest.fromJson (j : Json) : Except String NotificationRequest := do
  let max_id ← j.optStrField "max_id"
  let since_id ← j.optStrField "since_id"
  let min_id ← j.optStrField "min_id"
  let limit ← j.optNatField "limit"
  let types ← j.optNotifTypesField "types"
  let exclude_types ← j.optNotifTypesField "exclude_types"
  .ok { max_id := max_id, since_id := since_id, min_id := min_id,
        limit := limit, types := types, exclude_types := exclude_types }

/-- serde: `MediaUploadRequest` deserialization
(`serde_json::from_value::<MediaUploadRequest>` in `handle_media_upload`). -/
def MediaUploadRequest.fromJson (j : Json) : Except String MediaUploadRequest := do
  let file_path ← j.reqStrField "file_path"
  let description ← j.optStrField "description"
  let focus ← match j.get? "focus" with
    | none => .ok none
    | some .null => .ok none
    | some v => do
      let x ← match v.get? "x" with
        | some (.num n) => Except.ok n
        | some _ => .error "invalid type: field x"
        | none => .error "missing field x"
      let y ← match v.get? "y" with
        | some (.num n) => Except.ok n
        | some _ => .error "invalid type: field y"
        | none => .error "missing field y"
      .ok (some { x := x, y := y })
  .ok { file_path := file_path, description := description, focus := focus }

-- ===== string helpers (Rust std semantics) =====

/-- One pass of Rust `str::replace`: replace every non-overlapping occurrence
of `pat` left to right, structural in a fuel argument (one unit per consumed
character, so `l.length` fuel always suffices). An empty pattern never occurs
at any call site (the patterns are the scheme literals) and is treated as a
no-op. -/
def listReplaceAux (pat rep : List Char) : Nat → List Char → List Char
  | 0, l => l
  | _ + 1, [] => []
  | fuel + 1, c :: cs =>
    if pat ≠ [] ∧ pat.isPrefixOf (c :: cs) then
      rep ++ listReplaceAux pat rep fuel ((c :: cs).drop pat.length)
    else
      c :: listReplaceAux pat rep fuel cs

/-- Rust `str::replace(pat, rep)`. -/
def strReplace (s pat rep : String) : String :=
  String.mk (listReplaceAux pat.data rep.data s.data.length s.data)

/-- Rust `str::trim_end_matches('/')`: drop every trailing slash. -/
def trimEndSlashes (s : String) : String :=
  String.mk ((s.data.reverse.dropWhile (fun c => c == '/')).reverse)

/-- Rust `str::trim` (strip leading and trailing whitespace). -/
def strTrim (s : String) : String :=
  String.mk ((s.data.dropWhile Char.isWhitespace).reverse.dropWhile
    Char.isWhitespace |>.reverse)

/-- Rust `str::starts_with(p)`. -/
def strStartsWith (s p : String) : Bool :=
  p.data.isPrefixOf s.data

/-- `normalize_url` from `api/client.rs`: trim whitespace, prepend `https://`
when no scheme is present, drop trailing slashes. -/
def normalize_url (url : String) : String :=
  let url := strTrim url
  let url := if strStartsWith url "http://" || strStartsWith url "https://" then
      url
    else
      "https://" ++ url
  trimEndSlashes url

/-- The account-id domain derivation inlined in
`MessageHandler::handle_auth_callback` (handler.rs lines 244 to 246): strip the
scheme literals from the *raw* request parameter by plain substring
replacement. Note this is not `normalize_url`. -/
def instanceDomain (instance_url : String) : String :=
  strReplace (strReplace instance_url "https://" "") "http://" ""

-- ===== external-effect environment =====

/-- One invocation of a network-touching Remote Client operation, recorded so
that "never invokes the Remote Client" is a provable statement. -/
inductive RemoteCall where
  | registerApp : RemoteCall
  | fetchToken : RemoteCall
  | getCurrentUser : RemoteCall
  | getTimeline : RemoteCall
  | createPost : RemoteCall
  | boostPost : RemoteCall
  | unboostPost : RemoteCall
  | favouritePost : RemoteCall
  | unfavouritePost : RemoteCall
  | getNotifications : RemoteCall
  | clearNotifications : RemoteCall
  | dismissNotification : RemoteCall
  | uploadMedia : RemoteCall
  | getInstanceInfo : RemoteCall
deriving DecidableEq

/-- The environment of external effects: the megalodon library calls made by
`MastodonClient`, the clock and the UUID source. Remote results that the
router only forwards (timeline pages, posts, notifications, media attachments,
instance info) are abstracted as their serialized JSON payloads. -/
structure Env where
  /-- `Utc::now()` as an abstract instant. -/
  now : Nat
  /-- `Utc::now().to_rfc3339()` (the `ping` timestamp). -/
  nowStr : String
  /-- `uuid::Uuid::new_v4().to_string()` (the `auth.start` state value). -/
  uuid : String
  /-- `megalodon::generator(SNS::Mastodon, url, token, None)`: may fail, no
  network traffic. -/
  gen : String → Option String → Except String Unit
  /-- `client.register_app(...)` at `auth.start`: `(client_id, client_secret)`. -/
  registerApp : String → Except String (String × String)
  /-- `client.fetch_access_token(client_id, client_secret, code, redirect)`. -/
  fetchToken : OAuthAppData → String → Except String String
  /-- `client.verify_account_credentials()` via `get_current_user`. -/
  getCurrentUser : MastodonClient → Except String User
  /-- `MastodonClient::get_timeline`, result as serialized `TimelineResponse`. -/
  getTimeline : MastodonClient → TimelineRequest → Except String Json
  /-- `MastodonClient::create_post`, result as serialized `Post`. -/
  createPost : MastodonClient → NewPost → Except String Json
  boostPost : MastodonClient → String → Except String Json
  unboostPost : MastodonClient → String → Except String Json
  favouritePost : MastodonClient → String → Except String Json
  unfavouritePost : MastodonClient → String → Except String Json
  /-- `MastodonClient::get_notifications`, result as serialized `NotificationResponse`. -/
  getNotifications : MastodonClient → NotificationRequest → Except String Json
  clearNotifications : MastodonClient → Except String Unit
  dismissNotification : MastodonClient → String → Except String Unit
  /-- `Path::exists` check inside `MastodonClient::upload_media`. -/
  fileExists : String → Bool
  /-- `MastodonClient::upload_media`, result as serialized `MediaAttachment`. -/
  uploadMedia : MastodonClient → MediaUploadRequest → Except String Json
  /-- `MastodonClient::get_instance_info`, result as serialized `InstanceInfo`. -/
  getInstanceInfo : MastodonClient → Except String Json

-- ===== MastodonClient operations (api/client.rs) =====

/-- `MastodonClient::start_auth`: normalize the url, register the app, store
the app data in the process-wide pending slot, build the authorization URL.
Returns (result, new pending slot, remote calls made). -/
def MastodonClient.start_auth (env : Env) (pending : Option OAuthAppData)
    (instance_url : String) :
    Except String AuthResponse × Option OAuthAppData × List RemoteCall :=
  let u := normalize_url instance_url
  match env.gen u none with
  | .error e => (.error e, pending, [])
  | .ok _ =>
    match env.registerApp u with
    | .error e => (.error ("Failed to register application: " ++ e), pending,
        [RemoteCall.registerApp])
    | .ok (client_id, client_secret) =>
      let pending := some { client_id := client_id, client_secret := client_secret,
                            instance_url := u }
      let auth_url := u ++ "/oauth/authorize?client_id=" ++ client_id ++
        "&redirect_uri=urn%3Aietf%3Awg%3Aoauth%3A2.0%3Aoob&response_type=code&scope=read+write+follow+push"
      (.ok { auth_url := auth_url, state := env.uuid }, pending, [RemoteCall.registerApp])

/-- `MastodonClient::complete_auth`: normalize the url, read (never write) the
pending slot, fail closed when the slot is empty or records a different
instance, otherwise exchange the code for a token and build the authenticated
client. The pending slot is only read, so it needs no updated value here. -/
def MastodonClient.complete_auth (env : Env) (pending : Option OAuthAppData)
    (instance_url code : String) :
    Except String MastodonClient × List RemoteCall :=
  let u := normalize_url instance_url
  match pending with
  | none => (.error "No pending OAuth flow", [])
  | some app_data =>
    if app_data.instance_url ≠ u then
      (.error "Instance URL mismatch", [])
    else
      match env.gen u none with
      | .error e => (.error e, [])
      | .ok _ =>
        match env.fetchToken app_data code with
        | .error e => (.error ("Failed to fetch access token: " ++ e),
            [RemoteCall.fetchToken])
        | .ok access_token =>
          match env.gen u (some access_token) with
          | .error e => (.error e, [RemoteCall.fetchToken])
          | .ok _ =>
            (.ok { instance_url := u, access_token := access_token },
              [RemoteCall.fetchToken])

/-- `MastodonClient::from_token`: normalize the url and generate a client from
the saved token; no network call. -/
def MastodonClient.from_token (env : Env) (instance_url access_token : String) :
    Except String MastodonClient :=
  let u := normalize_url instance_url
  match env.gen u (some access_token) with
  | .error e => .error e
  | .ok _ => .ok { instance_url := u, access_token := access_token }

/-- `MastodonClient::upload_media`: bail when the file does not exist, then
perform the remote upload. -/
def MastodonClient.upload_media (env : Env) (client : MastodonClient)
    (request : MediaUploadRequest) : Except String Json × List RemoteCall :=
  if env.fileExists request.file_path then
    match env.uploadMedia client request with
    | .ok j => (.ok j, [RemoteCall.uploadMedia])
    | .error e => (.error ("Failed to upload media: " ++ e), [RemoteCall.uploadMedia])
  else
    (.error ("File not found: " ++ request.file_path), [])

-- ===== CacheManager (cache/mod.rs) =====

/-- The durable store: the `accounts` table (as the list of its rows) and the
`settings` key-value table. A row of `accounts` is modelled by the
`StoredAccount` visible to readers: `get_account` and friends reconstruct the
record from the serialized `data` column and then overwrite the token fields
from their dedicated columns, so the visible row is exactly the last record
saved. -/
structure CacheDB where
  accounts : List StoredAccount
  settings : List (String × String)
deriving DecidableEq

/-- Success or failure of each SQL statement the cache layer issues, as a
function of its arguments. Every cache call is fallible I/O from the caller's
point of view; this oracle decides which calls fail. -/
structure DbOracle where
  saveOk : StoredAccount → Bool
  /-- the `UPDATE accounts SET is_default = 0` statement in `set_default_account` -/
  clearDefaultsOk : Bool
  /-- the `UPDATE accounts SET is_default = 1 ... WHERE id = ?` statement -/
  setDefaultOk : String → Bool
  deleteOk : String → Bool
  getAccountOk : String → Bool
  getAccountsOk : Bool
  getDefaultOk : Bool
  getSettingOk : String → Bool
  setSettingOk : String → String → Bool
  getAllSettingsOk : Bool

/-- The all-statements-succeed oracle. -/
def DbOracle.allOk : DbOracle :=
  { saveOk := fun _ => true, clearDefaultsOk := true, setDefaultOk := fun _ => true,
    deleteOk := fun _ => true, getAccountOk := fun _ => true, getAccountsOk := true,
    getDefaultOk := true, getSettingOk := fun _ => true,
    setSettingOk := fun _ _ => true, getAllSettingsOk := true }

/-- The `INSERT ... ON CONFLICT(id) DO UPDATE` upsert of
`CacheManager::save_account`: readers see the new record wholesale (the `data`
column carries the full serialization and the token columns are updated too). -/
def CacheDB.upsertAccount (db : CacheDB) (a : StoredAccount) : CacheDB :=
  if db.accounts.any (fun x => x.id == a.id) then
    { db with accounts := db.accounts.map (fun x => if x.id == a.id then a else x) }
  else
    { db with accounts := db.accounts ++ [a] }

/-- `CacheManager::save_account` (fallible). -/
def cacheSaveAccount (o : DbOracle) (a : StoredAccount) (db : CacheDB) :
    Except String Unit × CacheDB :=
  if o.saveOk a then (.ok (), db.upsertAccount a) else (.error "database error", db)

/-- `CacheManager::set_default_account`: two separate statements, first clear
every default flag, then set the target row default and refresh its
`last_used_at`. Each statement can fail independently; a statement that fails changes
nothing, and a failure of the first statement prevents the second. -/
def cacheSetDefaultAccount (o : DbOracle) (now : Nat) (account_id : String)
    (db : CacheDB) : Except String Unit × CacheDB :=
  if o.clearDefaultsOk then
    let db := { db with accounts := db.accounts.map (fun x => { x with is_default := false }) }
    if o.setDefaultOk account_id then
      (.ok (), { db with accounts := db.accounts.map (fun x =>
        if x.id == account_id then { x with is_default := true, last_used_at := now } else x) })
    else
      (.error "database error", db)
  else
    (.error "database error", db)

/-- `CacheManager::delete_account` (fallible `DELETE ... WHERE id = ?`). -/
def cacheDeleteAccount (o : DbOracle) (account_id : String) (db : CacheDB) :
    Except String Unit × CacheDB :=
  if o.deleteOk account_id then
    (.ok (), { db with accounts := db.accounts.filter (fun x => x.id != account_id) })
  else
    (.error "database error", db)

/-- `CacheManager::get_account` (`SELECT ... WHERE id = ?`, read-only). -/
def cacheGetAccount (o : DbOracle) (account_id : String) (db : CacheDB) :
    Except String (Option StoredAccount) :=
  if o.getAccountOk account_id then
    .ok (db.accounts.find? (fun x => x.id == account_id))
  else
    .error "database error"

/-- `CacheManager::get_accounts` (`SELECT ... ORDER BY last_used_at DESC`),
modelled with a stable insertion sort by descending `last_used_at`. -/
def sortByLastUsedDesc (l : List StoredAccount) : List StoredAccount :=
  let insert := fun (a : StoredAccount) (sorted : List StoredAccount) =>
    let rec go : List StoredAccount → List StoredAccount
      | [] => [a]
      | b :: bs => if b.last_used_at ≥ a.last_used_at then b :: go bs else a :: b :: bs
    go sorted
  l.foldr insert []

/-- `CacheManager::get_accounts` (fallible, read-only). -/
def cacheGetAccounts (o : DbOracle) (db : CacheDB) :
    Except String (List StoredAccount) :=
  if o.getAccountsOk then .ok (sortByLastUsedDesc db.accounts) else .error "database error"

/-- `CacheManager::get_default_account`: first any row with `is_default = 1`,
otherwise the most recently used row. -/
def cacheGetDefaultAccount (o : DbOracle) (db : CacheDB) :
    Except String (Option StoredAccount) :=
  if o.getDefaultOk then
    match db.accounts.find? (fun x => x.is_default) with
    | some a => .ok (some a)
    | none => .ok ((sortByLastUsedDesc db.accounts).head?)
  else
    .error "database error"

/-- `CacheManager::get_setting` (read-only). -/
def cacheGetSetting (o : DbOracle) (key : String) (db : CacheDB) :
    Except String (Option String) :=
  if o.getSettingOk key then
    .ok ((db.settings.find? (fun kv => kv.1 == key)).map (·.2))
  else
    .error "database error"

/-- `CacheManager::set_setting` (upsert). -/
def cacheSetSetting (o : DbOracle) (key value : String) (db : CacheDB) :
    Except String Unit × CacheDB :=
  if o.setSettingOk key value then
    if db.settings.any (fun kv => kv.1 == key) then
      (.ok (), { db with settings := db.settings.map (fun kv =>
        if kv.1 == key then (key, value) else kv) })
    else
      (.ok (), { db with settings := db.settings ++ [(key, value)] })
  else
    (.error "database error", db)

/-- `CacheManager::get_all_settings` (read-only). -/
def cacheGetAllSettings (o : DbOracle) (db : CacheDB) :
    Except String (List (String × String)) :=
  if o.getAllSettingsOk then .ok db.settings else .error "database error"

-- ===== MessageHandler state (ipc/handler.rs) =====

/-- The two session slots owned by `MessageHandler`. -/
structure Session where
  client : Option MastodonClient
  current_account_id : Option String
deriving DecidableEq

/-- The whole mutable state a request can touch: the session slots, the
durable store and the process-wide pending-OAuth slot. -/
structure World where
  session : Session
  db : CacheDB
  pending : Option OAuthAppData
deriving DecidableEq

/-- The outcome of handling one message: the response written back, the state
afterwards, and the Remote Client operations that were invoked. -/
structure StepOut where
  resp : IpcMessage
  world : World
  calls : List RemoteCall

/-- serde serialization of `StoredAccount` (fields with
`#[serde(skip_serializing)]` — the two tokens and the two PM keys — omitted),
as embedded in the `auth.get_accounts` result. -/
def StoredAccount.toJson (a : StoredAccount) : Json :=
  Json.obj [
    ("id", Json.str a.id),
    ("instance_url", Json.str a.instance_url),
    ("username", Json.str a.username),
    ("acct", Json.str a.acct),
    ("display_name", Json.str a.display_name),
    ("token_expires_at", match a.token_expires_at with
      | some t => Json.num t | none => Json.null),
    ("added_at", Json.num a.added_at),
    ("last_used_at", Json.num a.last_used_at),
    ("is_default", Json.bool a.is_default),
    ("avatar_url", match a.avatar_url with
      | some u => Json.str u | none => Json.null)]

/-- serde serialization of the modelled `User` fields, as embedded in the
`auth.switch_account` result. -/
def User.toJson (u : User) : Json :=
  Json.obj [
    ("id", Json.str u.id),
    ("username", Json.str u.username),
    ("acct", Json.str u.acct),
    ("display_name", Json.str u.display_name),
    ("avatar", Json.str u.avatar)]

/-- `MessageHandler::handle_ping`. -/
def handle_ping (env : Env) (o : DbOracle) (w : World) (msg : IpcMessage) : StepOut :=
  { resp := IpcMessage.response_ok msg.id (Json.obj [
      ("pong", Json.bool true), ("timestamp", Json.str env.nowStr)]),
    world := w, calls := [] }

/-- `MessageHandler::handle_shutdown`. -/
def handle_shutdown (env : Env) (o : DbOracle) (w : World) (msg : IpcMessage) : StepOut :=
  { resp := IpcMessage.response_ok msg.id (Json.obj [
      ("status", Json.str "shutting_down")]),
    world := w, calls := [] }

/-- `MessageHandler::handle_auth_start`. -/
def handle_auth_start (env : Env) (o : DbOracle) (w : World) (msg : IpcMessage) : StepOut :=
  match msg.params with
  | none =>
    { resp := IpcMessage.response_err msg.id
        (IpcError.new error_codes.INVALID_PARAMS "Missing params"),
      world := w, calls := [] }
  | some params =>
    match (params.get? "instance_url").bind Json.asStr? with
    | none =>
      { resp := IpcMessage.response_err msg.id
          (IpcError.new error_codes.INVALID_PARAMS "Missing instance_url"),
        world := w, calls := [] }
    | some instance_url =>
      match MastodonClient.start_auth env w.pending instance_url with
      | (.ok auth_response, pending, calls) =>
        { resp := IpcMessage.response_ok msg.id (Json.obj [
            ("auth_url", Json.str auth_response.auth_url),
            ("state", Json.str auth_response.state)]),
          world := { w with pending := pending }, calls := calls }
      | (.error e, pending, calls) =>
        { resp := IpcMessage.response_err msg.id
            (IpcError.new error_codes.API_ERROR ("Auth failed: " ++ e)),
          world := { w with pending := pending }, calls := calls }

/-- `MessageHandler::handle_auth_callback` (handler.rs lines 206 to 317). -/
def handle_auth_callback (env : Env) (o : DbOracle) (w : World) (msg : IpcMessage) : StepOut :=
  match msg.params with
  | none =>
    { resp := IpcMessage.response_err msg.id
        (IpcError.new error_codes.INVALID_PARAMS "Missing params"),
      world := w, calls := [] }
  | some params =>
    match (params.get? "code").bind Json.asStr? with
    | none =>
      { resp := IpcMessage.response_err msg.id
          (IpcError.new error_codes.INVALID_PARAMS "Missing code"),
        world := w, calls := [] }
    | some code =>
      match (params.get? "instance_url").bind Json.asStr? with
      | none =>
        { resp := IpcMessage.response_err msg.id
            (IpcError.new error_codes.INVALID_PARAMS "Missing instance_url"),
          world := w, calls := [] }
      | some instance_url =>
        match MastodonClient.complete_auth env w.pending instance_url code with
        | (.error e, calls) =>
          { resp := IpcMessage.response_err msg.id
              (IpcError.new error_codes.API_ERROR ("Auth failed: " ++ e)),
            world := w, calls := calls }
        | (.ok client, calls) =>
          match env.getCurrentUser client with
          | .ok user =>
            let instance_domain := instanceDomain instance_url
            let account_id := user.username ++ "@" ++ instance_domain
            let stored_account : StoredAccount :=
              { id := account_id,
                instance_url := client.instance_url,
                username := user.username,
                acct := user.acct,
                display_name := user.display_name,
                access_token := client.access_token,
                refresh_token := none,
                token_expires_at := none,
                added_at := env.now,
                last_used_at := env.now,
                is_default := true,
                avatar_url := some user.avatar,
                blindodon_pm_private_key := none,
                blindodon_pm_public_key := none }
            -- save_account: a failure is logged and execution continues
            let (_, db1) := cacheSaveAccount o stored_account w.db
            -- set_default_account: a failure is logged and execution continues
            let (_, db2) := cacheSetDefaultAccount o env.now account_id db1
            { resp := IpcMessage.response_ok msg.id (Json.obj [
                ("success", Json.bool true),
                ("account", Json.obj [
                  ("id", Json.str account_id),
                  ("instance_url", Json.str stored_account.instance_url),
                  ("username", Json.str stored_account.username),
                  ("display_name", Json.str stored_account.display_name),
                  ("avatar_url", match stored_account.avatar_url with
                    | some u => Json.str u | none => Json.null),
                  ("is_default", Json.bool stored_account.is_default),
                  ("last_used_at", Json.num stored_account.last_used_at)])]),
              world := { w with
                session := { client := some client, current_account_id := some account_id },
                db := db2 },
              calls := calls ++ [RemoteCall.getCurrentUser] }
          | .error e =>
            -- auth succeeded but the user fetch failed: store the client only
            { resp := IpcMessage.response_ok msg.id (Json.obj [
                ("success", Json.bool true),
                ("error_fetching_user", Json.str e)]),
              world := { w with session := { w.session with client := some client } },
              calls := calls ++ [RemoteCall.getCurrentUser] }

/-- `MessageHandler::handle_auth_logout`. -/
def handle_auth_logout (env : Env) (o : DbOracle) (w : World) (msg : IpcMessage) : StepOut :=
  let account_id := w.session.current_account_id
  let w := { w with session := { client := none, current_account_id := none } }
  let delete_account := (paramBool msg.params "delete_account").getD false
  let w :=
    if delete_account then
      match account_id with
      | some id =>
        -- a delete failure is logged and execution continues
        let (_, db) := cacheDeleteAccount o id w.db
        { w with db := db }
      | none => w
    else w
  { resp := IpcMessage.response_ok msg.id (Json.obj [("success", Json.bool true)]),
    world := w, calls := [] }

/-- `MessageHandler::handle_auth_get_accounts`. -/
def handle_auth_get_accounts (env : Env) (o : DbOracle) (w : World) (msg : IpcMessage) : StepOut :=
  let has_client := w.session.client.isSome
  let current_account_id := w.session.current_account_id
  -- a read failure is logged and replaced by the empty list
  let accounts := match cacheGetAccounts o w.db with
    | .ok accounts => accounts
    | .error _ => []
  { resp := IpcMessage.response_ok msg.id (Json.obj [
      ("authenticated", Json.bool has_client),
      ("current_account_id", match current_account_id with
        | some id => Json.str id | none => Json.null),
      ("accounts", Json.arr (accounts.map StoredAccount.toJson))]),
    world := w, calls := [] }

/-- `MessageHandler::handle_auth_switch_account` (handler.rs lines 370 to 449). -/
def handle_auth_switch_account (env : Env) (o : DbOracle) (w : World) (msg : IpcMessage) : StepOut :=
  match msg.params with
  | none =>
    { resp := IpcMessage.response_err msg.id
        (IpcError.new error_codes.INVALID_PARAMS "Missing params"),
      world := w, calls := [] }
  | some params =>
    match (params.get? "account_id").bind Json.asStr? with
    | none =>
      { resp := IpcMessage.response_err msg.id
          (IpcError.new error_codes.INVALID_PARAMS "Missing account_id"),
        world := w, calls := [] }
    | some account_id =>
      match cacheGetAccount o account_id w.db with
      | .ok none =>
        { resp := IpcMessage.response_err msg.id
            (IpcError.new error_codes.NOT_AUTHENTICATED "Account not found"),
          world := w, calls := [] }
      | .error e =>
        { resp := IpcMessage.response_err msg.id
            (IpcError.new error_codes.INTERNAL_ERROR ("Database error: " ++ e)),
          world := w, calls := [] }
      | .ok (some account) =>
        match MastodonClient.from_token env account.instance_url account.access_token with
        | .error e =>
          { resp := IpcMessage.response_err msg.id
              (IpcError.new error_codes.INTERNAL_ERROR ("Failed to create client: " ++ e)),
            world := w, calls := [] }
        | .ok client =>
          match env.getCurrentUser client with
          | .error e =>
            { resp := IpcMessage.response_err msg.id
                (IpcError.new error_codes.API_ERROR
                  ("Token expired, please re-authenticate: " ++ e)),
              world := w, calls := [RemoteCall.getCurrentUser] }
          | .ok user =>
            -- `let _ =`: the set_default failure is ignored
            let (_, db) := cacheSetDefaultAccount o env.now account_id w.db
            { resp := IpcMessage.response_ok msg.id (Json.obj [
                ("success", Json.bool true),
                ("account", account.toJson),
                ("user", user.toJson)]),
              world := { w with
                session := { client := some client, current_account_id := some account_id },
                db := db },
              calls := [RemoteCall.getCurrentUser] }

/-- `MessageHandler::handle_auth_delete_account` (handler.rs lines 452 to 493):
note the session slots are cleared *before* the store delete is attempted. -/
def handle_auth_delete_account (env : Env) (o : DbOracle) (w : World) (msg : IpcMessage) : StepOut :=
  match msg.params with
  | none =>
    { resp := IpcMessage.response_err msg.id
        (IpcError.new error_codes.INVALID_PARAMS "Missing params"),
      world := w, calls := [] }
  | some params =>
    match (params.get? "account_id").bind Json.asStr? with
    | none =>
      { resp := IpcMessage.response_err msg.id
          (IpcError.new error_codes.INVALID_PARAMS "Missing account_id"),
        world := w, calls := [] }
    | some account_id =>
      let w :=
        if w.session.current_account_id == some account_id then
          { w with session := { client := none, current_account_id := none } }
        else w
      match cacheDeleteAccount o account_id w.db with
      | (.ok _, db) =>
        { resp := IpcMessage.response_ok msg.id (Json.obj [("success", Json.bool true)]),
          world := { w with db := db }, calls := [] }
      | (.error e, db) =>
        { resp := IpcMessage.response_err msg.id
            (IpcError.new error_codes.INTERNAL_ERROR ("Failed to delete account: " ++ e)),
          world := { w with db := db }, calls := [] }

/-- `MessageHandler::handle_settings_get`. -/
def handle_settings_get (env : Env) (o : DbOracle) (w : World) (msg : IpcMessage) : StepOut :=
  match msg.params with
  | none =>
    { resp := IpcMessage.response_err msg.id
        (IpcError.new error_codes.INVALID_PARAMS "Missing params"),
      world := w, calls := [] }
  | some params =>
    match (params.get? "key").bind Json.asStr? with
    | none =>
      { resp := IpcMessage.response_err msg.id
          (IpcError.new error_codes.INVALID_PARAMS "Missing key"),
        world := w, calls := [] }
    | some key =>
      match cacheGetSetting o key w.db with
      | .ok value =>
        { resp := IpcMessage.response_ok msg.id (Json.obj [
            ("key", Json.str key),
            ("value", match value with | some v => Json.str v | none => Json.null)]),
          world := w, calls := [] }
      | .error e =>
        { resp := IpcMessage.response_err msg.id
            (IpcError.new error_codes.INTERNAL_ERROR ("Database error: " ++ e)),
          world := w, calls := [] }

/-- `MessageHandler::handle_settings_set`. -/
def handle_settings_set (env : Env) (o : DbOracle) (w : World) (msg : IpcMessage) : StepOut :=
  match msg.params with
  | none =>
    { resp := IpcMessage.response_err msg.id
        (IpcError.new error_codes.INVALID_PARAMS "Missing params"),
      world := w, calls := [] }
  | some params =>
    match (params.get? "key").bind Json.asStr? with
    | none =>
      { resp := IpcMessage.response_err msg.id
          (IpcError.new error_codes.INVALID_PARAMS "Missing key"),
        world := w, calls := [] }
    | some key =>
      match (params.get? "value").bind Json.asStr? with
      | none =>
        { resp := IpcMessage.response_err msg.id
            (IpcError.new error_codes.INVALID_PARAMS "Missing value"),
          world := w, calls := [] }
      | some value =>
        match cacheSetSetting o key value w.db with
        | (.ok _, db) =>
          { resp := IpcMessage.response_ok msg.id (Json.obj [("success", Json.bool true)]),
            world := { w with db := db }, calls := [] }
        | (.error e, db) =>
          { resp := IpcMessage.response_err msg.id
              (IpcError.new error_codes.INTERNAL_ERROR ("Database error: " ++ e)),
            world := { w with db := db }, calls := [] }

/-- `MessageHandler::handle_settings_get_all`. -/
def handle_settings_get_all (env : Env) (o : DbOracle) (w : World) (msg : IpcMessage) : StepOut :=
  match cacheGetAllSettings o w.db with
  | .ok settings =>
    { resp := IpcMessage.response_ok msg.id (Json.obj [
        ("settings", Json.obj (settings.map (fun kv => (kv.1, Json.str kv.2))))]),
      world := w, calls := [] }
  | .error e =>
    { resp := IpcMessage.response_err msg.id
        (IpcError.new error_codes.INTERNAL_ERROR ("Database error: " ++ e)),
      world := w, calls := [] }

/-- `MessageHandler::handle_timeline_get` (handler.rs lines 601 to 646). -/
def handle_timeline_get (env : Env) (o : DbOracle) (w : World) (msg : IpcMessage) : StepOut :=
  match w.session.client with
  | none =>
    { resp := IpcMessage.response_err msg.id
        (IpcError.new error_codes.NOT_AUTHENTICATED "Not authenticated"),
      world := w, calls := [] }
  | some client =>
    match msg.params with
    | none =>
      { resp := IpcMessage.response_err msg.id
          (IpcError.new error_codes.INVALID_PARAMS "Missing params"),
        world := w, calls := [] }
    | some params =>
      match TimelineRequest.fromJson params with
      | .error e =>
        { resp := IpcMessage.response_err msg.id
            (IpcError.new error_codes.INVALID_PARAMS ("Invalid params: " ++ e)),
          world := w, calls := [] }
      | .ok request =>
        match env.getTimeline client request with
        | .ok response =>
          { resp := IpcMessage.response_ok msg.id response,
            world := w, calls := [RemoteCall.getTimeline] }
        | .error e =>
          { resp := IpcMessage.response_err msg.id
              (IpcError.new error_codes.API_ERROR ("Failed to fetch timeline: " ++ e)),
            world := w, calls := [RemoteCall.getTimeline] }

/-- `MessageHandler::handle_post_create`. -/
def handle_post_create (env : Env) (o : DbOracle) (w : World) (msg : IpcMessage) : StepOut :=
  match w.session.client with
  | none =>
    { resp := IpcMessage.response_err msg.id
        (IpcError.new error_codes.NOT_AUTHENTICATED "Not authenticated"),
      world := w, calls := [] }
  | some client =>
    match msg.params with
    | none =>
      { resp := IpcMessage.response_err msg.id
          (IpcError.new error_codes.INVALID_PARAMS "Missing params"),
        world := w, calls := [] }
    | some params =>
      match NewPost.fromJson params with
      | .error e =>
        { resp := IpcMessage.response_err msg.id
            (IpcError.new error_codes.INVALID_PARAMS ("Invalid params: " ++ e)),
          world := w, calls := [] }
      | .ok new_post =>
        match env.createPost client new_post with
        | .ok post =>
          { resp := IpcMessage.response_ok msg.id post,
            world := w, calls := [RemoteCall.createPost] }
        | .error e =>
          { resp := IpcMessage.response_err msg.id
              (IpcError.new error_codes.API_ERROR ("Failed to create post: " ++ e)),
            world := w, calls := [RemoteCall.createPost] }

/-- `MessageHandler::handle_post_action` (handler.rs lines 715 to 769): the
shared boost / unboost / favourite / unfavourite handler. -/
def handle_post_action (env : Env) (o : DbOracle) (w : World) (msg : IpcMessage)
    (action : String) : StepOut :=
  match w.session.client with
  | none =>
    { resp := IpcMessage.response_err msg.id
        (IpcError.new error_codes.NOT_AUTHENTICATED "Not authenticated"),
      world := w, calls := [] }
  | some client =>
    match msg.params with
    | none =>
      { resp := IpcMessage.response_err msg.id
          (IpcError.new error_codes.INVALID_PARAMS "Missing params"),
        world := w, calls := [] }
    | some params =>
      match (params.get? "post_id").bind Json.asStr? with
      | none =>
        { resp := IpcMessage.response_err msg.id
            (IpcError.new error_codes.INVALID_PARAMS "Missing post_id"),
          world := w, calls := [] }
      | some post_id =>
        let remote : Option (Except String Json × RemoteCall) :=
          if action == "boost" then some (env.boostPost client post_id, RemoteCall.boostPost)
          else if action == "unboost" then some (env.unboostPost client post_id, RemoteCall.unboostPost)
          else if action == "favourite" then some (env.favouritePost client post_id, RemoteCall.favouritePost)
          else if action == "unfavourite" then some (env.unfavouritePost client post_id, RemoteCall.unfavouritePost)
          else none
        match remote with
        | none =>
          { resp := IpcMessage.response_err msg.id
              (IpcError.new error_codes.INTERNAL_ERROR "Unknown action"),
            world := w, calls := [] }
        | some (.ok post, call) =>
          { resp := IpcMessage.response_ok msg.id post,
            world := w, calls := [call] }
        | some (.error e, call) =>
          { resp := IpcMessage.response_err msg.id
              (IpcError.new error_codes.API_ERROR
                ("Failed to " ++ action ++ " post: " ++ e)),
            world := w, calls := [call] }

/-- `MessageHandler::handle_instance_get`. -/
def handle_instance_get (env : Env) (o : DbOracle) (w : World) (msg : IpcMessage) : StepOut :=
  match w.session.client with
  | none =>
    { resp := IpcMessage.response_err msg.id
        (IpcError.new error_codes.NOT_AUTHENTICATED "Not authenticated"),
      world := w, calls := [] }
  | some client =>
    match env.getInstanceInfo client with
    | .ok info =>
      { resp := IpcMessage.response_ok msg.id info,
        world := w, calls := [RemoteCall.getInstanceInfo] }
    | .error e =>
      { resp := IpcMessage.response_err msg.id
          (IpcError.new error_codes.API_ERROR ("Failed to get instance info: " ++ e)),
        world := w, calls := [RemoteCall.getInstanceInfo] }

/-- `MessageHandler::handle_notifications_get`. -/
def handle_notifications_get (env : Env) (o : DbOracle) (w : World) (msg : IpcMessage) : StepOut :=
  match w.session.client with
  | none =>
    { resp := IpcMessage.response_err msg.id
        (IpcError.new error_codes.NOT_AUTHENTICATED "Not authenticated"),
      world := w, calls := [] }
  | some client =>
    let parsed : Except String NotificationRequest :=
      match msg.params with
      | some p => NotificationRequest.fromJson p
      | none => .ok NotificationRequest.default
    match parsed with
    | .error e =>
      { resp := IpcMessage.response_err msg.id
          (IpcError.new error_codes.INVALID_PARAMS ("Invalid params: " ++ e)),
        world := w, calls := [] }
    | .ok request =>
      match env.getNotifications client request with
      | .ok response =>
        { resp := IpcMessage.response_ok msg.id response,
          world := w, calls := [RemoteCall.getNotifications] }
      | .error e =>
        { resp := IpcMessage.response_err msg.id
            (IpcError.new error_codes.API_ERROR ("Failed to fetch notifications: " ++ e)),
          world := w, calls := [RemoteCall.getNotifications] }

/-- `MessageHandler::handle_notifications_clear`. -/
def handle_notifications_clear (env : Env) (o : DbOracle) (w : World) (msg : IpcMessage) : StepOut :=
  match w.session.client with
  | none =>
    { resp := IpcMessage.response_err msg.id
        (IpcError.new error_codes.NOT_AUTHENTICATED "Not authenticated"),
      world := w, calls := [] }
  | some client =>
    match env.clearNotifications client with
    | .ok _ =>
      { resp := IpcMessage.response_ok msg.id (Json.obj [("success", Json.bool true)]),
        world := w, calls := [RemoteCall.clearNotifications] }
    | .error e =>
      { resp := IpcMessage.response_err msg.id
          (IpcError.new error_codes.API_ERROR ("Failed to clear notifications: " ++ e)),
        world := w, calls := [RemoteCall.clearNotifications] }

/-- `MessageHandler::handle_notifications_dismiss`. -/
def handle_notifications_dismiss (env : Env) (o : DbOracle) (w : World) (msg : IpcMessage) : StepOut :=
  match w.session.client with
  | none =>
    { resp := IpcMessage.response_err msg.id
        (IpcError.new error_codes.NOT_AUTHENTICATED "Not authenticated"),
      world := w, calls := [] }
  | some client =>
    match msg.params with
    | none =>
      { resp := IpcMessage.response_err msg.id
          (IpcError.new error_codes.INVALID_PARAMS "Missing params"),
        world := w, calls := [] }
    | some params =>
      match (params.get? "notification_id").bind Json.asStr? with
      | none =>
        { resp := IpcMessage.response_err msg.id
            (IpcError.new error_codes.INVALID_PARAMS "Missing notification_id"),
          world := w, calls := [] }
      | some notification_id =>
        match env.dismissNotification client notification_id with
        | .ok _ =>
          { resp := IpcMessage.response_ok msg.id (Json.obj [("success", Json.bool true)]),
            world := w, calls := [RemoteCall.dismissNotification] }
        | .error e =>
          { resp := IpcMessage.response_err msg.id
              (IpcError.new error_codes.API_ERROR
                ("Failed to dismiss notification: " ++ e)),
            world := w, calls := [RemoteCall.dismissNotification] }

/-- `MessageHandler::handle_media_upload`. -/
def handle_media_upload (env : Env) (o : DbOracle) (w : World) (msg : IpcMessage) : StepOut :=
  match w.session.client with
  | none =>
    { resp := IpcMessage.response_err msg.id
        (IpcError.new error_codes.NOT_AUTHENTICATED "Not authenticated"),
      world := w, calls := [] }
  | some client =>
    match msg.params with
    | none =>
      { resp := IpcMessage.response_err msg.id
          (IpcError.new error_codes.INVALID_PARAMS "Missing params"),
        world := w, calls := [] }
    | some params =>
      match MediaUploadRequest.fromJson params with
      | .error e =>
        { resp := IpcMessage.response_err msg.id
            (IpcError.new error_codes.INVALID_PARAMS ("Invalid params: " ++ e)),
          world := w, calls := [] }
      | .ok request =>
        match MastodonClient.upload_media env client request with
        | (.ok attachment, calls) =>
          { resp := IpcMessage.response_ok msg.id attachment,
            world := w, calls := calls }
        | (.error e, calls) =>
          { resp := IpcMessage.response_err msg.id
              (IpcError.new error_codes.API_ERROR ("Failed to upload media: " ++ e)),
            world := w, calls := calls }

/-- `MessageHandler::handle_message` (handler.rs lines 91 to 148): dispatch on
the method name; an unknown method yields `METHOD_NOT_FOUND`. -/
def handle_message (env : Env) (o : DbOracle) (w : World) (msg : IpcMessage) : StepOut :=
  let method := msg.method.getD "unknown"
  if method == methods.PING then handle_ping env o w msg
  else if method == methods.SHUTDOWN then handle_shutdown env o w msg
  else if method == methods.AUTH_START then handle_auth_start env o w msg
  else if method == methods.AUTH_CALLBACK then handle_auth_callback env o w msg
  else if method == methods.AUTH_LOGOUT then handle_auth_logout env o w msg
  else if method == methods.AUTH_GET_ACCOUNTS then handle_auth_get_accounts env o w msg
  else if method == methods.AUTH_SWITCH_ACCOUNT then handle_auth_switch_account env o w msg
  else if method == methods.AUTH_DELETE_ACCOUNT then handle_auth_delete_account env o w msg
  else if method == methods.SETTINGS_GET then handle_settings_get env o w msg
  else if method == methods.SETTINGS_SET then handle_settings_set env o w msg
  else if method == methods.SETTINGS_GET_ALL then handle_settings_get_all env o w msg
  else if method == methods.TIMELINE_GET then handle_timeline_get env o w msg
  else if method == methods.POST_CREATE then handle_post_create env o w msg
  else if method == methods.POST_BOOST then handle_post_action env o w msg "boost"
  else if method == methods.POST_UNBOOST then handle_post_action env o w msg "unboost"
  else if method == methods.POST_FAVOURITE then handle_post_action env o w msg "favourite"
  else if method == methods.POST_UNFAVOURITE then handle_post_action env o w msg "unfavourite"
  else if method == methods.NOTIFICATIONS_GET then handle_notifications_get env o w msg
  else if method == methods.NOTIFICATIONS_CLEAR then handle_notifications_clear env o w msg
  else if method == methods.NOTIFICATIONS_DISMISS then handle_notifications_dismiss env o w msg
  else if method == methods.MEDIA_UPLOAD then handle_media_upload env o w msg
  else if method == methods.INSTANCE_GET then handle_instance_get env o w msg
  else
    { resp := IpcMessage.response_err msg.id
        (IpcError.new error_codes.METHOD_NOT_FOUND ("Unknown method: " ++ method)),
      world := w, calls := [] }

/-- `MessageHandler::initialize` (handler.rs lines 54 to 88): session restore
at startup. Any verification failure is only logged; the result is `Ok(())`
unless the initial store read itself fails (the `?` operator). -/
def MessageHandler.initialize (env : Env) (o : DbOracle) (w : World) :
    Except String Unit × World :=
  match cacheGetDefaultAccount o w.db with
  | .error e => (.error e, w)
  | .ok none => (.ok (), w)
  | .ok (some account) =>
    match MastodonClient.from_token env account.instance_url account.access_token with
    | .error _ => (.ok (), w)
    | .ok client =>
      match env.getCurrentUser client with
      | .error _ => (.ok (), w)
      | .ok _user =>
        let w := { w with session :=
          { client := some client, current_account_id := some account.id } }
        -- failure to update the last-used time is only logged
        let (_, db) := cacheSetDefaultAccount o env.now account.id w.db
        (.ok (), { w with db := db })

/-- One iteration body of `handle_client_unix` (server.rs lines 251 to 299):
empty frames are skipped; a frame that parses is handled and its response
written; a frame that fails to parse produces one synthesized `PARSE_ERROR`
response with id `"unknown"`. The serde parse itself is a library call,
passed in as `parse`. -/
def processLine (env : Env) (o : DbOracle)
    (parse : String → Except String IpcMessage) (w : World) (line : String) :
    List IpcMessage × World :=
  let trimmed := strTrim line
  if trimmed == "" then ([], w)
  else
    match parse trimmed with
    | .ok msg =>
      let out := handle_message env o w msg
      ([out.resp], out.world)
    | .error e =>
      ([IpcMessage.response_err "unknown"
          (IpcError.new error_codes.PARSE_ERROR ("Failed to parse message: " ++ e))], w)

/-- The read loop of `handle_client_unix` over the sequence of inbound frames
of one connection: every frame is processed in order; no frame terminates the
loop early. Returns the frames written back. -/
def clientLoop (env : Env) (o : DbOracle)
    (parse : String → Except String IpcMessage) :
    World → List String → List IpcMessage × World
  | w, [] => ([], w)
  | w, line :: rest =>
    let (out, w1) := processLine env o parse w line
    let (outs, w2) := clientLoop env o parse w1 rest
    (out ++ outs, w2)

-- ===== derived definitions used by the claims =====

/-- The methods whose handlers require an authenticated session (each begins
with the `self.client.read().await` guard). -/
def authRequiredMethods : List String :=
  [methods.TIMELINE_GET, methods.POST_CREATE, methods.POST_BOOST,
   methods.POST_UNBOOST, methods.POST_FAVOURITE, methods.POST_UNFAVOURITE,
   methods.NOTIFICATIONS_GET, methods.NOTIFICATIONS_CLEAR,
   methods.NOTIFICATIONS_DISMISS, methods.MEDIA_UPLOAD, methods.INSTANCE_GET]

/-- Number of stored accounts flagged default. -/
def countDefaults (db : CacheDB) : Nat :=
  (db.accounts.filter (fun a => a.is_default)).length

/-- The spec invariant: at most one stored account has `is_default = true`. -/
def atMostOneDefault (db : CacheDB) : Prop :=
  countDefaults db ≤ 1

/-- The account ids are pairwise distinct (`id` is the SQL primary key). -/
def accountIdsNodup (db : CacheDB) : Prop :=
  (db.accounts.map (fun a => a.id)).Nodup

/-- Handle a sequence of requests in order, threading the state. -/
def runMessages (env : Env) (o : DbOracle) : World → List IpcMessage → World
  | w, [] => w
  | w, msg :: rest => runMessages env o (handle_message env o w msg).world rest

/-- A `Response` has its originating request's id, the `Response` type tag,
and exactly one of `result` / `error` populated. -/
def wellFormedReply (id : String) (r : IpcMessage) : Prop :=
  r.id = id ∧ r.message_type = MessageType.Response ∧
    ((r.result.isSome = true ∧ r.error = none) ∨
      (r.result = none ∧ r.error.isSome = true))

-- ===== concrete fixtures used by witnesses and counterexamples =====

/-- A concrete request envelope (ids are produced by the sender). -/
def testRequest (id method : String) (params : Option Json) : IpcMessage :=
  { id := id, message_type := MessageType.Request, method := some method,
    params := params, result := none, error := none }

/-- A concrete remote user. -/
def aliceUser : User :=
  { id := "1", username := "alice", acct := "alice",
    display_name := "Alice", avatar := "https://mastodon.social/a.png" }

/-- A concrete second remote user. -/
def bobUser : User :=
  { id := "2", username := "bob", acct := "bob",
    display_name := "Bob", avatar := "https://y.example/b.png" }

/-- A stored account for alice, flagged default. -/
def aliceAccount : StoredAccount :=
  { id := "alice@mastodon.social", instance_url := "https://mastodon.social",
    username := "alice", acct := "alice", display_name := "Alice",
    access_token := "tok-alice", refresh_token := none, token_expires_at := none,
    added_at := 1, last_used_at := 1, is_default := true, avatar_url := none,
    blindodon_pm_private_key := none, blindodon_pm_public_key := none }

/-- A concrete environment in which every external call succeeds. -/
def happyEnv : Env :=
  { now := 7, nowStr := "2025-01-01T00:00:00Z", uuid := "uuid-1",
    gen := fun _ _ => .ok (),
    registerApp := fun _ => .ok ("cid", "csec"),
    fetchToken := fun _ _ => .ok "tok-new",
    getCurrentUser := fun _ => .ok aliceUser,
    getTimeline := fun _ _ => .ok Json.null,
    createPost := fun _ _ => .ok Json.null,
    boostPost := fun _ _ => .ok Json.null,
    unboostPost := fun _ _ => .ok Json.null,
    favouritePost := fun _ _ => .ok Json.null,
    unfavouritePost := fun _ _ => .ok Json.null,
    getNotifications := fun _ _ => .ok Json.null,
    clearNotifications := fun _ => .ok (),
    dismissNotification := fun _ _ => .ok (),
    fileExists := fun _ => true,
    uploadMedia := fun _ _ => .ok Json.null,
    getInstanceInfo := fun _ => .ok Json.null }

/-- The anonymous world: no session, empty store, no pending flow. -/
def anonWorld : World :=
  { session := { client := none, current_account_id := none },
    db := { accounts := [], settings := [] }, pending := none }

/-- A world authenticated as alice with her account stored as the default. -/
def aliceWorld : World :=
  { session := { client := some { instance_url := "https://mastodon.social",
                                  access_token := "tok-alice" },
                 current_account_id := some "alice@mastodon.social" },
    db := { accounts := [aliceAccount], settings := [] }, pending := none }

/-- Session stability under error responses, as corrected: an error response
leaves the session slots untouched, except that `auth.delete_account` clears
them (to Anonymous) before the store delete whose failure produced the error. -/
def errSessionStable (w : World) (msg : IpcMessage) (out : StepOut) : Prop :=
  out.resp.error.isSome = true →
    out.world.session = w.session ∨
      (msg.method = some methods.AUTH_DELETE_ACCOUNT ∧
        out.world.session = { client := none, current_account_id := none })

/-- An environment whose stored tokens all fail verification. -/
def expiredEnv : Env :=
  { happyEnv with getCurrentUser := fun _ => .error "401 Unauthorized" }

/-- An oracle where the account `DELETE` statement fails. -/
def deleteFailOracle : DbOracle :=
  { DbOracle.allOk with deleteOk := fun _ => false }

/-- An oracle where the clear-all-defaults statement fails. -/
def clearFailOracle : DbOracle :=
  { DbOracle.allOk with clearDefaultsOk := false }

/-- A delete request for the account alice is logged in with. -/
def deleteAliceMsg : IpcMessage :=
  testRequest "d1" "auth.delete_account"
    (some (Json.obj [("account_id", Json.str "alice@mastodon.social")]))

/-- An environment where the fetched current user is bob. -/
def bobEnv : Env :=
  { happyEnv with getCurrentUser := fun _ => .ok bobUser }

/-- A pending OAuth flow for the instance `https://y.example`. -/
def pendingY : OAuthAppData :=
  { client_id := "cid", client_secret := "csec", instance_url := "https://y.example" }

/-- Alice stored as default, no session, a pending flow for `y.example`. -/
def c4World : World :=
  { session := { client := none, current_account_id := none },
    db := { accounts := [aliceAccount], settings := [] }, pending := some pendingY }

/-- A callback request completing the `y.example` flow. -/
def callbackYMsg : IpcMessage :=
  testRequest "c1" "auth.callback"
    (some (Json.obj [("code", Json.str "code1"),
                     ("instance_url", Json.str "https://y.example")]))

/-- An `auth.start` request for `https://a.example`. -/
def startAMsg : IpcMessage :=
  testRequest "s1" "auth.start"
    (some (Json.obj [("instance_url", Json.str "https://a.example")]))

/-- The pending flow `auth.start` stores for `https://a.example` under
`happyEnv` (client id and secret from `registerApp`). -/
def pendingA : OAuthAppData :=
  { client_id := "cid", client_secret := "csec", instance_url := "https://a.example" }

/-- A callback request completing the `a.example` flow. -/
def callbackAMsg : IpcMessage :=
  testRequest "c2" "auth.callback"
    (some (Json.obj [("code", Json.str "code2"),
                     ("instance_url", Json.str "https://a.example")]))

/-- A callback request for `b.example` (mismatching the pending `a.example`). -/
def callbackBMsg : IpcMessage :=
  testRequest "c3" "auth.callback"
    (some (Json.obj [("code", Json.str "code3"),
                     ("instance_url", Json.str "https://b.example")]))

/-- A pending OAuth flow for `https://mastodon.social`. -/
def pendingMasto : OAuthAppData :=
  { client_id := "cid", client_secret := "csec",
    instance_url := "https://mastodon.social" }

/-- Anonymous world with a pending flow for `https://mastodon.social`. -/
def mastoPendingWorld : World :=
  { session := { client := none, current_account_id := none },
    db := { accounts := [], settings := [] }, pending := some pendingMasto }

/-- A callback whose `instance_url` parameter carries no trailing slash. -/
def callbackNoSlashMsg : IpcMessage :=
  testRequest "c4" "auth.callback"
    (some (Json.obj [("code", Json.str "code4"),
                     ("instance_url", Json.str "https://mastodon.social")]))

/-- The same callback with a trailing slash on `instance_url` (normalizing to
the same instance, so the pending-flow check passes). -/
def callbackSlashMsg : IpcMessage :=
  testRequest "c5" "auth.callback"
    (some (Json.obj [("code", Json.str "code5"),
                     ("instance_url", Json.str "https://mastodon.social/")]))

/-- A get-accounts request. -/
def getAccountsMsg : IpcMessage :=
  testRequest "g1" "auth.get_accounts" none

/-- A parse stub for the read loop: accepts the single frame `"good"`. -/
def stubParse (s : String) : Except String IpcMessage :=
  if s == "good" then .ok (testRequest "p1" "ping" none)
  else .error "expected value at line 1"

/-- Both store invariants together: distinct primary keys and at most one
default row. -/
def dbInv (db : CacheDB) : Prop := accountIdsNodup db ∧ atMostOneDefault db

/-- Anonymous world holding the pending flow for `https://a.example`. -/
def pendingAWorld : World :=
  { session := { client := none, current_account_id := none },
    db := { accounts := [], settings := [] }, pending := some pendingA }

/-- The startup world: anonymous session, alice stored as the default. -/
def restoreWorld : World :=
  { session := { client := none, current_account_id := none },
    db := { accounts := [aliceAccount], settings := [] }, pending := none }

/-- An environment whose token exchange succeeds but whose current-user
fetch fails. -/
def fetchUserFailEnv : Env :=
  { happyEnv with getCurrentUser := fun _ => .error "timeout" }

-- ===== theorems =====

theorem wellFormedReply_ok (id : String) (v : Json) :
    wellFormedReply id (IpcMessage.response_ok id v) := by
  simp [wellFormedReply, IpcMessage.response_ok]

theorem wellFormedReply_err (id : String) (e : IpcError) :
    wellFormedReply id (IpcMessage.response_err id e) := by
  simp [wellFormedReply, IpcMessage.response_err]

theorem handle_ping_wf (env : Env) (o : DbOracle) (w : World) (msg : IpcMessage) :
    wellFormedReply msg.id (handle_ping env o w msg).resp :=
  wellFormedReply_ok _ _

theorem handle_shutdown_wf (env : Env) (o : DbOracle) (w : World) (msg : IpcMessage) :
    wellFormedReply msg.id (handle_shutdown env o w msg).resp :=
  wellFormedReply_ok _ _

theorem handle_auth_start_wf (env : Env) (o : DbOracle) (w : World) (msg : IpcMessage) :
    wellFormedReply msg.id (handle_auth_start env o w msg).resp := by
  unfold handle_auth_start
  repeat' split
  all_goals (try dsimp only)
  all_goals repeat' split
  all_goals first
    | exact wellFormedReply_ok _ _
    | exact wellFormedReply_err _ _

theorem handle_auth_callback_wf (env : Env) (o : DbOracle) (w : World) (msg : IpcMessage) :
    wellFormedReply msg.id (handle_auth_callback env o w msg).resp := by
  unfold handle_auth_callback
  repeat' split
  all_goals (try dsimp only)
  all_goals repeat' split
  all_goals first
    | exact wellFormedReply_ok _ _
    | exact wellFormedReply_err _ _

theorem handle_auth_logout_wf (env : Env) (o : DbOracle) (w : World) (msg : IpcMessage) :
    wellFormedReply msg.id (handle_auth_logout env o w msg).resp := by
  unfold handle_auth_logout
  repeat' split
  all_goals (try dsimp only)
  all_goals repeat' split
  all_goals first
    | exact wellFormedReply_ok _ _
    | exact wellFormedReply_err _ _

theorem handle_auth_get_accounts_wf (env : Env) (o : DbOracle) (w : World) (msg : IpcMessage) :
    wellFormedReply msg.id (handle_auth_get_accounts env o w msg).resp := by
  unfold handle_auth_get_accounts
  repeat' split
  all_goals (try dsimp only)
  all_goals repeat' split
  all_goals first
    | exact wellFormedReply_ok _ _
    | exact wellFormedReply_err _ _

theorem handle_auth_switch_account_wf (env : Env) (o : DbOracle) (w : World) (msg : IpcMessage) :
    wellFormedReply msg.id (handle_auth_switch_account env o w msg).resp := by
  unfold handle_auth_switch_account
  repeat' split
  all_goals (try dsimp only)
  all_goals repeat' split
  all_goals first
    | exact wellFormedReply_ok _ _
    | exact wellFormedReply_err _ _

theorem handle_auth_delete_account_wf (env : Env) (o : DbOracle) (w : World) (msg : IpcMessage) :
    wellFormedReply msg.id (handle_auth_delete_account env o w msg).resp := by
  unfold handle_auth_delete_account
  repeat' split
  all_goals (try dsimp only)
  all_goals repeat' split
  all_goals first
    | exact wellFormedReply_ok _ _
    | exact wellFormedReply_err _ _

theorem handle_settings_get_wf (env : Env) (o : DbOracle) (w : World) (msg : IpcMessage) :
    wellFormedReply msg.id (handle_settings_get env o w msg).resp := by
  unfold handle_settings_get
  repeat' split
  all_goals first
    | exact wellFormedReply_ok _ _
    | exact wellFormedReply_err _ _

theorem handle_settings_set_wf (env : Env) (o : DbOracle) (w : World) (msg : IpcMessage) :
    wellFormedReply msg.id (handle_settings_set env o w msg).resp := by
  unfold handle_settings_set
  repeat' split
  all_goals first
    | exact wellFormedReply_ok _ _
    | exact wellFormedReply_err _ _

theorem handle_settings_get_all_wf (env : Env) (o : DbOracle) (w : World) (msg : IpcMessage) :
    wellFormedReply msg.id (handle_settings_get_all env o w msg).resp := by
  unfold handle_settings_get_all
  repeat' split
  all_goals first
    | exact wellFormedReply_ok _ _
    | exact wellFormedReply_err _ _

theorem handle_timeline_get_wf (env : Env) (o : DbOracle) (w : World) (msg : IpcMessage) :
    wellFormedReply msg.id (handle_timeline_get env o w msg).resp := by
  unfold handle_timeline_get
  repeat' split
  all_goals first
    | exact wellFormedReply_ok _ _
    | exact wellFormedReply_err _ _

theorem handle_post_create_wf (env : Env) (o : DbOracle) (w : World) (msg : IpcMessage) :
    wellFormedReply msg.id (handle_post_create env o w msg).resp := by
  unfold handle_post_create
  repeat' split
  all_goals first
    | exact wellFormedReply_ok _ _
    | exact wellFormedReply_err _ _

theorem handle_post_action_wf (env : Env) (o : DbOracle) (w : World) (msg : IpcMessage)
    (action : String) :
    wellFormedReply msg.id (handle_post_action env o w msg action).resp := by
  unfold handle_post_action
  repeat' split
  all_goals (try dsimp only)
  all_goals repeat' split
  all_goals first
    | exact wellFormedReply_ok _ _
    | exact wellFormedReply_err _ _

theorem handle_instance_get_wf (env : Env) (o : DbOracle) (w : World) (msg : IpcMessage) :
    wellFormedReply msg.id (handle_instance_get env o w msg).resp := by
  unfold handle_instance_get
  repeat' split
  all_goals first
    | exact wellFormedReply_ok _ _
    | exact wellFormedReply_err _ _

theorem handle_notifications_get_wf (env : Env) (o : DbOracle) (w : World) (msg : IpcMessage) :
    wellFormedReply msg.id (handle_notifications_get env o w msg).resp := by
  unfold handle_notifications_get
  repeat' split
  all_goals (try dsimp only)
  all_goals repeat' split
  all_goals first
    | exact wellFormedReply_ok _ _
    | exact wellFormedReply_err _ _

theorem handle_notifications_clear_wf (env : Env) (o : DbOracle) (w : World) (msg : IpcMessage) :
    wellFormedReply msg.id (handle_notifications_clear env o w msg).resp := by
  unfold handle_notifications_clear
  repeat' split
  all_goals first
    | exact wellFormedReply_ok _ _
    | exact wellFormedReply_err _ _

theorem handle_notifications_dismiss_wf (env : Env) (o : DbOracle) (w : World) (msg : IpcMessage) :
    wellFormedReply msg.id (handle_notifications_dismiss env o w msg).resp := by
  unfold handle_notifications_dismiss
  repeat' split
  all_goals first
    | exact wellFormedReply_ok _ _
    | exact wellFormedReply_err _ _

theorem handle_media_upload_wf (env : Env) (o : DbOracle) (w : World) (msg : IpcMessage) :
    wellFormedReply msg.id (handle_media_upload env o w msg).resp := by
  unfold handle_media_upload
  repeat' split
  all_goals first
    | exact wellFormedReply_ok _ _
    | exact wellFormedReply_err _ _

theorem wellFormedReply_ite (i : String) (c : Prop) [Decidable c] (a b : StepOut)
    (ha : wellFormedReply i a.resp) (hb : wellFormedReply i b.resp) :
    wellFormedReply i (if c then a else b).resp := by
  split
  · exact ha
  · exact hb

/-- C1. For every parsed request routed through `handle_message`, the returned
response carries the identical id and exactly one of `result` / `error` is
populated (never both, never neither). -/
theorem ipc_request_response_correlation (env : Env) (o : DbOracle) (w : World)
    (msg : IpcMessage) :
    wellFormedReply msg.id (handle_message env o w msg).resp := by
  unfold handle_message
  dsimp only
  exact wellFormedReply_ite _ _ _ _ (handle_ping_wf env o w msg)
    (wellFormedReply_ite _ _ _ _ (handle_shutdown_wf env o w msg)
    (wellFormedReply_ite _ _ _ _ (handle_auth_start_wf env o w msg)
    (wellFormedReply_ite _ _ _ _ (handle_auth_callback_wf env o w msg)
    (wellFormedReply_ite _ _ _ _ (handle_auth_logout_wf env o w msg)
    (wellFormedReply_ite _ _ _ _ (handle_auth_get_accounts_wf env o w msg)
    (wellFormedReply_ite _ _ _ _ (handle_auth_switch_account_wf env o w msg)
    (wellFormedReply_ite _ _ _ _ (handle_auth_delete_account_wf env o w msg)
    (wellFormedReply_ite _ _ _ _ (handle_settings_get_wf env o w msg)
    (wellFormedReply_ite _ _ _ _ (handle_settings_set_wf env o w msg)
    (wellFormedReply_ite _ _ _ _ (handle_settings_get_all_wf env o w msg)
    (wellFormedReply_ite _ _ _ _ (handle_timeline_get_wf env o w msg)
    (wellFormedReply_ite _ _ _ _ (handle_post_create_wf env o w msg)
    (wellFormedReply_ite _ _ _ _ (handle_post_action_wf env o w msg "boost")
    (wellFormedReply_ite _ _ _ _ (handle_post_action_wf env o w msg "unboost")
    (wellFormedReply_ite _ _ _ _ (handle_post_action_wf env o w msg "favourite")
    (wellFormedReply_ite _ _ _ _ (handle_post_action_wf env o w msg "unfavourite")
    (wellFormedReply_ite _ _ _ _ (handle_notifications_get_wf env o w msg)
    (wellFormedReply_ite _ _ _ _ (handle_notifications_clear_wf env o w msg)
    (wellFormedReply_ite _ _ _ _ (handle_notifications_dismiss_wf env o w msg)
    (wellFormedReply_ite _ _ _ _ (handle_media_upload_wf env o w msg)
    (wellFormedReply_ite _ _ _ _ (handle_instance_get_wf env o w msg)
    (wellFormedReply_err _ _))))))))))))))))))))))

-- dispatch lemmas: handle_message reduces to the per-method handler

theorem dispatch_auth_start (env : Env) (o : DbOracle) (w : World) (msg : IpcMessage)
    (hm : msg.method = some methods.AUTH_START) :
    handle_message env o w msg = handle_auth_start env o w msg := by
  unfold handle_message; rw [hm]; rfl

theorem dispatch_auth_callback (env : Env) (o : DbOracle) (w : World) (msg : IpcMessage)
    (hm : msg.method = some methods.AUTH_CALLBACK) :
    handle_message env o w msg = handle_auth_callback env o w msg := by
  unfold handle_message; rw [hm]; rfl

theorem dispatch_auth_get_accounts (env : Env) (o : DbOracle) (w : World) (msg : IpcMessage)
    (hm : msg.method = some methods.AUTH_GET_ACCOUNTS) :
    handle_message env o w msg = handle_auth_get_accounts env o w msg := by
  unfold handle_message; rw [hm]; rfl

theorem dispatch_auth_switch_account (env : Env) (o : DbOracle) (w : World) (msg : IpcMessage)
    (hm : msg.method = some methods.AUTH_SWITCH_ACCOUNT) :
    handle_message env o w msg = handle_auth_switch_account env o w msg := by
  unfold handle_message; rw [hm]; rfl

theorem dispatch_auth_delete_account (env : Env) (o : DbOracle) (w : World) (msg : IpcMessage)
    (hm : msg.method = some methods.AUTH_DELETE_ACCOUNT) :
    handle_message env o w msg = handle_auth_delete_account env o w msg := by
  unfold handle_message; rw [hm]; rfl

theorem dispatch_timeline_get (env : Env) (o : DbOracle) (w : World) (msg : IpcMessage)
    (hm : msg.method = some methods.TIMELINE_GET) :
    handle_message env o w msg = handle_timeline_get env o w msg := by
  unfold handle_message; rw [hm]; rfl

theorem dispatch_post_create (env : Env) (o : DbOracle) (w : World) (msg : IpcMessage)
    (hm : msg.method = some methods.POST_CREATE) :
    handle_message env o w msg = handle_post_create env o w msg := by
  unfold handle_message; rw [hm]; rfl

theorem dispatch_post_boost (env : Env) (o : DbOracle) (w : World) (msg : IpcMessage)
    (hm : msg.method = some methods.POST_BOOST) :
    handle_message env o w msg = handle_post_action env o w msg "boost" := by
  unfold handle_message; rw [hm]; rfl

theorem dispatch_post_unboost (env : Env) (o : DbOracle) (w : World) (msg : IpcMessage)
    (hm : msg.method = some methods.POST_UNBOOST) :
    handle_message env o w msg = handle_post_action env o w msg "unboost" := by
  unfold handle_message; rw [hm]; rfl

theorem dispatch_post_favourite (env : Env) (o : DbOracle) (w : World) (msg : IpcMessage)
    (hm : msg.method = some methods.POST_FAVOURITE) :
    handle_message env o w msg = handle_post_action env o w msg "favourite" := by
  unfold handle_message; rw [hm]; rfl

theorem dispatch_post_unfavourite (env : Env) (o : DbOracle) (w : World) (msg : IpcMessage)
    (hm : msg.method = some methods.POST_UNFAVOURITE) :
    handle_message env o w msg = handle_post_action env o w msg "unfavourite" := by
  unfold handle_message; rw [hm]; rfl

theorem dispatch_notifications_get (env : Env) (o : DbOracle) (w : World) (msg : IpcMessage)
    (hm : msg.method = some methods.NOTIFICATIONS_GET) :
    handle_message env o w msg = handle_notifications_get env o w msg := by
  unfold handle_message; rw [hm]; rfl

theorem dispatch_notifications_clear (env : Env) (o : DbOracle) (w : World) (msg : IpcMessage)
    (hm : msg.method = some methods.NOTIFICATIONS_CLEAR) :
    handle_message env o w msg = handle_notifications_clear env o w msg := by
  unfold handle_message; rw [hm]; rfl

theorem dispatch_notifications_dismiss (env : Env) (o : DbOracle) (w : World) (msg : IpcMessage)
    (hm : msg.method = some methods.NOTIFICATIONS_DISMISS) :
    handle_message env o w msg = handle_notifications_dismiss env o w msg := by
  unfold handle_message; rw [hm]; rfl

theorem dispatch_media_upload (env : Env) (o : DbOracle) (w : World) (msg : IpcMessage)
    (hm : msg.method = some methods.MEDIA_UPLOAD) :
    handle_message env o w msg = handle_media_upload env o w msg := by
  unfold handle_message; rw [hm]; rfl

theorem dispatch_instance_get (env : Env) (o : DbOracle) (w : World) (msg : IpcMessage)
    (hm : msg.method = some methods.INSTANCE_GET) :
    handle_message env o w msg = handle_instance_get env o w msg := by
  unfold handle_message; rw [hm]; rfl

-- per-handler authentication gates: with no client in the session slot, the
-- handler returns NOT_AUTHENTICATED, leaves the state alone and performs no
-- remote call

theorem handle_timeline_get_gate (env : Env) (o : DbOracle) (w : World) (msg : IpcMessage)
    (h : w.session.client = none) :
    handle_timeline_get env o w msg =
      { resp := IpcMessage.response_err msg.id
          (IpcError.new error_codes.NOT_AUTHENTICATED "Not authenticated"),
        world := w, calls := [] } := by
  unfold handle_timeline_get; rw [h]

theorem handle_post_create_gate (env : Env) (o : DbOracle) (w : World) (msg : IpcMessage)
    (h : w.session.client = none) :
    handle_post_create env o w msg =
      { resp := IpcMessage.response_err msg.id
          (IpcError.new error_codes.NOT_AUTHENTICATED "Not authenticated"),
        world := w, calls := [] } := by
  unfold handle_post_create; rw [h]

theorem handle_post_action_gate (env : Env) (o : DbOracle) (w : World) (msg : IpcMessage)
    (action : String) (h : w.session.client = none) :
    handle_post_action env o w msg action =
      { resp := IpcMessage.response_err msg.id
          (IpcError.new error_codes.NOT_AUTHENTICATED "Not authenticated"),
        world := w, calls := [] } := by
  unfold handle_post_action; rw [h]

theorem handle_notifications_get_gate (env : Env) (o : DbOracle) (w : World) (msg : IpcMessage)
    (h : w.session.client = none) :
    handle_notifications_get env o w msg =
      { resp := IpcMessage.response_err msg.id
          (IpcError.new error_codes.NOT_AUTHENTICATED "Not authenticated"),
        world := w, calls := [] } := by
  unfold handle_notifications_get; rw [h]

theorem handle_notifications_clear_gate (env : Env) (o : DbOracle) (w : World) (msg : IpcMessage)
    (h : w.session.client = none) :
    handle_notifications_clear env o w msg =
      { resp := IpcMessage.response_err msg.id
          (IpcError.new error_codes.NOT_AUTHENTICATED "Not authenticated"),
        world := w, calls := [] } := by
  unfold handle_notifications_clear; rw [h]

theorem handle_notifications_dismiss_gate (env : Env) (o : DbOracle) (w : World) (msg : IpcMessage)
    (h : w.session.client = none) :
    handle_notifications_dismiss env o w msg =
      { resp := IpcMessage.response_err msg.id
          (IpcError.new error_codes.NOT_AUTHENTICATED "Not authenticated"),
        world := w, calls := [] } := by
  unfold handle_notifications_dismiss; rw [h]

theorem handle_media_upload_gate (env : Env) (o : DbOracle) (w : World) (msg : IpcMessage)
    (h : w.session.client = none) :
    handle_media_upload env o w msg =
      { resp := IpcMessage.response_err msg.id
          (IpcError.new error_codes.NOT_AUTHENTICATED "Not authenticated"),
        world := w, calls := [] } := by
  unfold handle_media_upload; rw [h]

theorem handle_instance_get_gate (env : Env) (o : DbOracle) (w : World) (msg : IpcMessage)
    (h : w.session.client = none) :
    handle_instance_get env o w msg =
      { resp := IpcMessage.response_err msg.id
          (IpcError.new error_codes.NOT_AUTHENTICATED "Not authenticated"),
        world := w, calls := [] } := by
  unfold handle_instance_get; rw [h]

/-- C2. For every authenticated-only method, handling a request while the
session is Anonymous (client slot `None`) yields the NOT_AUTHENTICATED
(-1001) error response, leaves the whole state unchanged and invokes no
Remote Client operation. -/
theorem anonymous_auth_gate (env : Env) (o : DbOracle) (w : World) (msg : IpcMessage)
    (m : String) (hm : msg.method = some m) (hmem : m ∈ authRequiredMethods)
    (hanon : w.session.client = none) :
    handle_message env o w msg =
      { resp := IpcMessage.response_err msg.id
          (IpcError.new error_codes.NOT_AUTHENTICATED "Not authenticated"),
        world := w, calls := [] } := by
  fin_cases hmem
  · rw [dispatch_timeline_get env o w msg hm]
    exact handle_timeline_get_gate env o w msg hanon
  · rw [dispatch_post_create env o w msg hm]
    exact handle_post_create_gate env o w msg hanon
  · rw [dispatch_post_boost env o w msg hm]
    exact handle_post_action_gate env o w msg "boost" hanon
  · rw [dispatch_post_unboost env o w msg hm]
    exact handle_post_action_gate env o w msg "unboost" hanon
  · rw [dispatch_post_favourite env o w msg hm]
    exact handle_post_action_gate env o w msg "favourite" hanon
  · rw [dispatch_post_unfavourite env o w msg hm]
    exact handle_post_action_gate env o w msg "unfavourite" hanon
  · rw [dispatch_notifications_get env o w msg hm]
    exact handle_notifications_get_gate env o w msg hanon
  · rw [dispatch_notifications_clear env o w msg hm]
    exact handle_notifications_clear_gate env o w msg hanon
  · rw [dispatch_notifications_dismiss env o w msg hm]
    exact handle_notifications_dismiss_gate env o w msg hanon
  · rw [dispatch_media_upload env o w msg hm]
    exact handle_media_upload_gate env o w msg hanon
  · rw [dispatch_instance_get env o w msg hm]
    exact handle_instance_get_gate env o w msg hanon

/-- C2 witness: a concrete `timeline.get` request against the anonymous world. -/
theorem anonymous_auth_gate_witness :
    handle_message happyEnv DbOracle.allOk anonWorld
        (testRequest "r1" "timeline.get" none) =
      { resp := IpcMessage.response_err "r1"
          (IpcError.new error_codes.NOT_AUTHENTICATED "Not authenticated"),
        world := anonWorld, calls := [] } :=
  anonymous_auth_gate happyEnv DbOracle.allOk anonWorld
    (testRequest "r1" "timeline.get" none) "timeline.get" rfl (by decide) rfl

-- per-handler lemmas: an error response leaves the session slots unchanged
-- (auth.delete_account excepted, handled separately below)
theorem handle_ping_errStable (env : Env) (o : DbOracle) (w : World) (msg : IpcMessage) :
    errSessionStable w msg (handle_ping env o w msg) := by
  unfold errSessionStable handle_ping
  repeat' split
  all_goals (try dsimp only)
  all_goals repeat' split
  all_goals intro herr
  all_goals first
    | (left; rfl)
    | (simp [IpcMessage.response_ok] at herr)

theorem handle_shutdown_errStable (env : Env) (o : DbOracle) (w : World) (msg : IpcMessage) :
    errSessionStable w msg (handle_shutdown env o w msg) := by
  unfold errSessionStable handle_shutdown
  repeat' split
  all_goals (try dsimp only)
  all_goals repeat' split
  all_goals intro herr
  all_goals first
    | (left; rfl)
    | (simp [IpcMessage.response_ok] at herr)

theorem handle_auth_start_errStable (env : Env) (o : DbOracle) (w : World) (msg : IpcMessage) :
    errSessionStable w msg (handle_auth_start env o w msg) := by
  unfold errSessionStable handle_auth_start
  repeat' split
  all_goals (try dsimp only)
  all_goals repeat' split
  all_goals intro herr
  all_goals first
    | (left; rfl)
    | (simp [IpcMessage.response_ok] at herr)

theorem handle_auth_callback_errStable (env : Env) (o : DbOracle) (w : World) (msg : IpcMessage) :
    errSessionStable w msg (handle_auth_callback env o w msg) := by
  unfold errSessionStable handle_auth_callback
  repeat' split
  all_goals (try dsimp only)
  all_goals repeat' split
  all_goals intro herr
  all_goals first
    | (left; rfl)
    | (simp [IpcMessage.response_ok] at herr)

theorem handle_auth_logout_errStable (env : Env) (o : DbOracle) (w : World) (msg : IpcMessage) :
    errSessionStable w msg (handle_auth_logout env o w msg) := by
  unfold errSessionStable handle_auth_logout
  repeat' split
  all_goals (try dsimp only)
  all_goals repeat' split
  all_goals intro herr
  all_goals first
    | (left; rfl)
    | (simp [IpcMessage.response_ok] at herr)

theorem handle_auth_get_accounts_errStable (env : Env) (o : DbOracle) (w : World) (msg : IpcMessage) :
    errSessionStable w msg (handle_auth_get_accounts env o w msg) := by
  unfold errSessionStable handle_auth_get_accounts
  repeat' split
  all_goals (try dsimp only)
  all_goals repeat' split
  all_goals intro herr
  all_goals first
    | (left; rfl)
    | (simp [IpcMessage.response_ok] at herr)

theorem handle_auth_switch_account_errStable (env : Env) (o : DbOracle) (w : World) (msg : IpcMessage) :
    errSessionStable w msg (handle_auth_switch_account env o w msg) := by
  unfold errSessionStable handle_auth_switch_account
  repeat' split
  all_goals (try dsimp only)
  all_goals repeat' split
  all_goals intro herr
  all_goals first
    | (left; rfl)
    | (simp [IpcMessage.response_ok] at herr)

theorem handle_settings_get_errStable (env : Env) (o : DbOracle) (w : World) (msg : IpcMessage) :
    errSessionStable w msg (handle_settings_get env o w msg) := by
  unfold errSessionStable handle_settings_get
  repeat' split
  all_goals (try dsimp only)
  all_goals repeat' split
  all_goals intro herr
  all_goals first
    | (left; rfl)
    | (simp [IpcMessage.response_ok] at herr)

theorem handle_settings_set_errStable (env : Env) (o : DbOracle) (w : World) (msg : IpcMessage) :
    errSessionStable w msg (handle_settings_set env o w msg) := by
  unfold errSessionStable handle_settings_set
  repeat' split
  all_goals (try dsimp only)
  all_goals repeat' split
  all_goals intro herr
  all_goals first
    | (left; rfl)
    | (simp [IpcMessage.response_ok] at herr)

theorem handle_settings_get_all_errStable (env : Env) (o : DbOracle) (w : World) (msg : IpcMessage) :
    errSessionStable w msg (handle_settings_get_all env o w msg) := by
  unfold errSessionStable handle_settings_get_all
  repeat' split
  all_goals (try dsimp only)
  all_goals repeat' split
  all_goals intro herr
  all_goals first
    | (left; rfl)
    | (simp [IpcMessage.response_ok] at herr)

theorem handle_timeline_get_errStable (env : Env) (o : DbOracle) (w : World) (msg : IpcMessage) :
    errSessionStable w msg (handle_timeline_get env o w msg) := by
  unfold errSessionStable handle_timeline_get
  repeat' split
  all_goals (try dsimp only)
  all_goals repeat' split
  all_goals intro herr
  all_goals first
    | (left; rfl)
    | (simp [IpcMessage.response_ok] at herr)

theorem handle_post_create_errStable (env : Env) (o : DbOracle) (w : World) (msg : IpcMessage) :
    errSessionStable w msg (handle_post_create env o w msg) := by
  unfold errSessionStable handle_post_create
  repeat' split
  all_goals (try dsimp only)
  all_goals repeat' split
  all_goals intro herr
  all_goals first
    | (left; rfl)
    | (simp [IpcMessage.response_ok] at herr)

theorem handle_instance_get_errStable (env : Env) (o : DbOracle) (w : World) (msg : IpcMessage) :
    errSessionStable w msg (handle_instance_get env o w msg) := by
  unfold errSessionStable handle_instance_get
  repeat' split
  all_goals (try dsimp only)
  all_goals repeat' split
  all_goals intro herr
  all_goals first
    | (left; rfl)
    | (simp [IpcMessage.response_ok] at herr)

theorem handle_notifications_get_errStable (env : Env) (o : DbOracle) (w : World) (msg : IpcMessage) :
    errSessionStable w msg (handle_notifications_get env o w msg) := by
  unfold errSessionStable handle_notifications_get
  repeat' split
  all_goals (try dsimp only)
  all_goals repeat' split
  all_goals intro herr
  all_goals first
    | (left; rfl)
    | (simp [IpcMessage.response_ok] at herr)

theorem handle_notifications_clear_errStable (env : Env) (o : DbOracle) (w : World) (msg : IpcMessage) :
    errSessionStable w msg (handle_notifications_clear env o w msg) := by
  unfold errSessionStable handle_notifications_clear
  repeat' split
  all_goals (try dsimp only)
  all_goals repeat' split
  all_goals intro herr
  all_goals first
    | (left; rfl)
    | (simp [IpcMessage.response_ok] at herr)

theorem handle_notifications_dismiss_errStable (env : Env) (o : DbOracle) (w : World) (msg : IpcMessage) :
    errSessionStable w msg (handle_notifications_dismiss env o w msg) := by
  unfold errSessionStable handle_notifications_dismiss
  repeat' split
  all_goals (try dsimp only)
  all_goals repeat' split
  all_goals intro herr
  all_goals first
    | (left; rfl)
    | (simp [IpcMessage.response_ok] at herr)

theorem handle_media_upload_errStable (env : Env) (o : DbOracle) (w : World) (msg : IpcMessage) :
    errSessionStable w msg (handle_media_upload env o w msg) := by
  unfold errSessionStable handle_media_upload
  repeat' split
  all_goals (try dsimp only)
  all_goals repeat' split
  all_goals intro herr
  all_goals first
    | (left; rfl)
    | (simp [IpcMessage.response_ok] at herr)

theorem handle_post_action_errStable (env : Env) (o : DbOracle) (w : World)
    (msg : IpcMessage) (action : String) :
    errSessionStable w msg (handle_post_action env o w msg action) := by
  unfold errSessionStable handle_post_action
  repeat' split
  all_goals (try dsimp only)
  all_goals repeat' split
  all_goals intro herr
  all_goals first
    | (left; rfl)
    | (simp [IpcMessage.response_ok] at herr)

theorem handle_auth_delete_account_errStable (env : Env) (o : DbOracle) (w : World)
    (msg : IpcMessage) (hmeth : msg.method = some methods.AUTH_DELETE_ACCOUNT) :
    errSessionStable w msg (handle_auth_delete_account env o w msg) := by
  unfold errSessionStable handle_auth_delete_account
  repeat' split
  all_goals (try dsimp only)
  all_goals repeat' split
  all_goals intro herr
  all_goals first
    | (left; rfl)
    | (right; exact ⟨hmeth, rfl⟩)
    | (simp [IpcMessage.response_ok] at herr)

theorem errSessionStable_ite (w : World) (msg : IpcMessage) (c : Prop) [Decidable c]
    (a b : StepOut) (ha : c → errSessionStable w msg a)
    (hb : errSessionStable w msg b) :
    errSessionStable w msg (if c then a else b) := by
  by_cases h : c
  · rw [if_pos h]; exact ha h
  · rw [if_neg h]; exact hb

theorem method_eq_of_getD_beq (msg : IpcMessage) (lit : String)
    (hne : ("unknown" == lit) = false)
    (h : (msg.method.getD "unknown" == lit) = true) : msg.method = some lit := by
  cases hm : msg.method with
  | none =>
    rw [hm] at h
    simp only [Option.getD] at h
    rw [hne] at h
    cases h
  | some m =>
    rw [hm] at h
    simp only [Option.getD] at h
    rw [show m = lit from eq_of_beq h]

/-- C3 (amended). For every request whose response carries an error, the two
session slots are unchanged — except an `auth.delete_account` request, which
clears the session (to Anonymous) before attempting the store delete, so a
failing delete of the active account leaves the session cleared. In
particular a switch-account whose stored token fails verification leaves the
session in the previous state. -/
theorem request_error_session_stability (env : Env) (o : DbOracle) (w : World)
    (msg : IpcMessage)
    (herr : (handle_message env o w msg).resp.error.isSome = true) :
    (handle_message env o w msg).world.session = w.session ∨
      (msg.method = some methods.AUTH_DELETE_ACCOUNT ∧
        (handle_message env o w msg).world.session =
          { client := none, current_account_id := none }) := by
  revert herr
  show errSessionStable w msg (handle_message env o w msg)
  unfold handle_message
  dsimp only
  exact errSessionStable_ite _ _ _ _ _ (fun _ => handle_ping_errStable env o w msg)
    (errSessionStable_ite _ _ _ _ _ (fun _ => handle_shutdown_errStable env o w msg)
    (errSessionStable_ite _ _ _ _ _ (fun _ => handle_auth_start_errStable env o w msg)
    (errSessionStable_ite _ _ _ _ _ (fun _ => handle_auth_callback_errStable env o w msg)
    (errSessionStable_ite _ _ _ _ _ (fun _ => handle_auth_logout_errStable env o w msg)
    (errSessionStable_ite _ _ _ _ _ (fun _ => handle_auth_get_accounts_errStable env o w msg)
    (errSessionStable_ite _ _ _ _ _ (fun _ => handle_auth_switch_account_errStable env o w msg)
    (errSessionStable_ite _ _ _ _ _ (fun hc => handle_auth_delete_account_errStable env o w msg
        (method_eq_of_getD_beq msg _ (by decide) hc))
    (errSessionStable_ite _ _ _ _ _ (fun _ => handle_settings_get_errStable env o w msg)
    (errSessionStable_ite _ _ _ _ _ (fun _ => handle_settings_set_errStable env o w msg)
    (errSessionStable_ite _ _ _ _ _ (fun _ => handle_settings_get_all_errStable env o w msg)
    (errSessionStable_ite _ _ _ _ _ (fun _ => handle_timeline_get_errStable env o w msg)
    (errSessionStable_ite _ _ _ _ _ (fun _ => handle_post_create_errStable env o w msg)
    (errSessionStable_ite _ _ _ _ _ (fun _ => handle_post_action_errStable env o w msg "boost")
    (errSessionStable_ite _ _ _ _ _ (fun _ => handle_post_action_errStable env o w msg "unboost")
    (errSessionStable_ite _ _ _ _ _ (fun _ => handle_post_action_errStable env o w msg "favourite")
    (errSessionStable_ite _ _ _ _ _ (fun _ => handle_post_action_errStable env o w msg "unfavourite")
    (errSessionStable_ite _ _ _ _ _ (fun _ => handle_notifications_get_errStable env o w msg)
    (errSessionStable_ite _ _ _ _ _ (fun _ => handle_notifications_clear_errStable env o w msg)
    (errSessionStable_ite _ _ _ _ _ (fun _ => handle_notifications_dismiss_errStable env o w msg)
    (errSessionStable_ite _ _ _ _ _ (fun _ => handle_media_upload_errStable env o w msg)
    (errSessionStable_ite _ _ _ _ _ (fun _ => handle_instance_get_errStable env o w msg)
    (fun _ => Or.inl rfl))))))))))))))))))))))

/-- C3 counterexample: deleting the currently active account while the store
delete fails returns an error response, yet the session slots have changed
(they were cleared before the delete was attempted). -/
theorem request_error_session_changed_counterexample :
    (handle_message happyEnv deleteFailOracle aliceWorld deleteAliceMsg).resp.error.isSome
        = true ∧
      (handle_message happyEnv deleteFailOracle aliceWorld deleteAliceMsg).world.session
        ≠ aliceWorld.session := by
  constructor
  · rfl
  · decide

/-- C3 witness: a switch-account request whose stored token fails verification
produces an error response, and the theorem yields that the session is exactly
the previous one. -/
theorem request_error_session_stability_witness :
    (handle_message expiredEnv DbOracle.allOk aliceWorld
        (testRequest "s9" "auth.switch_account"
          (some (Json.obj [("account_id", Json.str "alice@mastodon.social")])))).world.session
        = aliceWorld.session ∨
      ((testRequest "s9" "auth.switch_account"
          (some (Json.obj [("account_id", Json.str "alice@mastodon.social")]))).method
          = some methods.AUTH_DELETE_ACCOUNT ∧
        (handle_message expiredEnv DbOracle.allOk aliceWorld
          (testRequest "s9" "auth.switch_account"
            (some (Json.obj [("account_id", Json.str "alice@mastodon.social")])))).world.session
          = { client := none, current_account_id := none }) :=
  request_error_session_stability expiredEnv DbOracle.allOk aliceWorld
    (testRequest "s9" "auth.switch_account"
      (some (Json.obj [("account_id", Json.str "alice@mastodon.social")]))) rfl


theorem map_id_of_pointwise (f : StoredAccount → StoredAccount)
    (hf : ∀ x, (f x).id = x.id) (l : List StoredAccount) :
    (l.map f).map (fun a => a.id) = l.map (fun a => a.id) := by
  induction l with
  | nil => rfl
  | cons x xs ih => simp [hf, ih]

theorem upsert_id_pointwise (a x : StoredAccount) :
    ((if x.id == a.id then a else x)).id = x.id := by
  by_cases h : (x.id == a.id) = true
  · rw [if_pos h, eq_of_beq h]
  · rw [if_neg (by simp_all)]

theorem count_id_le_one (l : List StoredAccount) (id0 : String)
    (h : (l.map (fun a => a.id)).Nodup) :
    (l.filter (fun x => x.id == id0)).length ≤ 1 := by
  induction l with
  | nil => simp
  | cons x xs ih =>
    rw [List.map_cons, List.nodup_cons] at h
    rw [List.filter_cons]
    by_cases hx : (x.id == id0) = true
    · rw [if_pos hx]
      have hz : (xs.filter (fun y => y.id == id0)).length = 0 := by
        rw [List.length_eq_zero]
        apply List.filter_eq_nil_iff.mpr
        intro y hy hmatch
        exact h.1 (by
          rw [eq_of_beq hx, ← eq_of_beq hmatch]
          exact List.mem_map_of_mem (fun a => a.id) hy)
      simp [hz]
    · rw [if_neg hx]
      exact ih h.2

theorem countP_default_clear_set (l : List StoredAccount) (id0 : String) (now : Nat) :
    (((l.map (fun x => { x with is_default := false })).map (fun x =>
        if x.id == id0 then { x with is_default := true, last_used_at := now } else x)).countP
      (fun a => a.is_default))
      = l.countP (fun x => x.id == id0) := by
  induction l with
  | nil => rfl
  | cons x xs ih =>
    simp only [List.map_cons, List.countP_cons, ih]
    by_cases hx : x.id = id0
    · simp [hx]
    · simp [hx]

theorem setDefault_snd_ids (now : Nat) (id0 : String) (db : CacheDB) :
    ((cacheSetDefaultAccount DbOracle.allOk now id0 db).2.accounts.map (fun a => a.id))
      = db.accounts.map (fun a => a.id) := by
  unfold cacheSetDefaultAccount DbOracle.allOk
  rw [if_pos rfl, if_pos rfl]
  dsimp only
  rw [map_id_of_pointwise _ (fun x => by by_cases h : (x.id == id0) = true <;> simp [h])]
  exact map_id_of_pointwise (fun x => { x with is_default := false }) (fun x => rfl)
    db.accounts

theorem setDefault_snd_inv (now : Nat) (id0 : String) (db : CacheDB)
    (h : accountIdsNodup db) :
    dbInv (cacheSetDefaultAccount DbOracle.allOk now id0 db).2 := by
  constructor
  · unfold accountIdsNodup
    rw [setDefault_snd_ids]
    exact h
  · unfold atMostOneDefault countDefaults
    unfold cacheSetDefaultAccount DbOracle.allOk
    rw [if_pos rfl, if_pos rfl]
    dsimp only
    rw [← List.countP_eq_length_filter, countP_default_clear_set,
      List.countP_eq_length_filter]
    exact count_id_le_one _ _ h

theorem upsert_nodup (db : CacheDB) (a : StoredAccount)
    (h : accountIdsNodup db) : accountIdsNodup (db.upsertAccount a) := by
  unfold CacheDB.upsertAccount
  by_cases hany : (db.accounts.any (fun x => x.id == a.id)) = true
  · rw [if_pos hany]
    unfold accountIdsNodup at *
    dsimp only
    rw [map_id_of_pointwise _ (upsert_id_pointwise a)]
    exact h
  · rw [if_neg hany]
    unfold accountIdsNodup at *
    dsimp only
    rw [List.map_append, List.nodup_append]
    refine ⟨h, List.nodup_singleton _, ?_⟩
    intro y hy hmem
    rw [List.map_singleton, List.mem_singleton] at hmem
    rcases List.mem_map.mp hy with ⟨x, hx, hxid⟩
    rw [Bool.not_eq_true] at hany
    have := List.any_eq_false.mp hany x hx
    exact this (by rw [beq_iff_eq, hxid, hmem])

theorem saveAccount_snd_nodup (o : DbOracle) (a : StoredAccount) (db : CacheDB)
    (h : accountIdsNodup db) : accountIdsNodup (cacheSaveAccount o a db).2 := by
  unfold cacheSaveAccount
  by_cases ho : (o.saveOk a) = true
  · rw [if_pos ho]; exact upsert_nodup db a h
  · rw [if_neg ho]; exact h

theorem deleteAccount_snd_inv (o : DbOracle) (id0 : String) (db : CacheDB)
    (h : dbInv db) : dbInv (cacheDeleteAccount o id0 db).2 := by
  unfold cacheDeleteAccount
  by_cases ho : (o.deleteOk id0) = true
  · rw [if_pos ho]
    constructor
    · unfold accountIdsNodup at *
      dsimp only
      exact List.Nodup.sublist (List.Sublist.map _ (List.filter_sublist _)) h.1
    · unfold atMostOneDefault countDefaults at *
      dsimp only
      exact le_trans
        (List.Sublist.length_le (List.Sublist.filter _ (List.filter_sublist _))) h.2
  · rw [if_neg ho]; exact h

theorem handle_auth_switch_account_dbInv (env : Env) (w : World) (msg : IpcMessage)
    (h : dbInv w.db) :
    dbInv (handle_auth_switch_account env DbOracle.allOk w msg).world.db := by
  unfold handle_auth_switch_account
  repeat' split
  all_goals (try exact h)
  rename_i x5 params h5 x4 aid h4 x3 acc h3 x2 cli h2 x1 usr h1 x0 fst db2 heq
  show dbInv db2
  have hs : (cacheSetDefaultAccount DbOracle.allOk env.now aid w.db).2 = db2 := by rw [heq]
  exact hs ▸ setDefault_snd_inv env.now aid w.db h.1

theorem handle_auth_delete_account_dbInv (env : Env) (w : World) (msg : IpcMessage)
    (h : dbInv w.db) :
    dbInv (handle_auth_delete_account env DbOracle.allOk w msg).world.db := by
  unfold handle_auth_delete_account
  repeat' split
  all_goals (try exact h)
  all_goals dsimp only
  all_goals repeat' split
  all_goals rename_i a db2 heq
  all_goals show dbInv db2
  all_goals (have hs := congrArg Prod.snd heq)
  all_goals (dsimp only at hs)
  all_goals exact hs ▸ deleteAccount_snd_inv DbOracle.allOk _ _ h

theorem handle_auth_callback_dbInv (env : Env) (w : World) (msg : IpcMessage)
    (h : dbInv w.db) :
    dbInv (handle_auth_callback env DbOracle.allOk w msg).world.db := by
  unfold handle_auth_callback
  repeat' split
  all_goals (try exact h)
  all_goals dsimp only
  all_goals exact setDefault_snd_inv env.now _ _ (saveAccount_snd_nodup DbOracle.allOk _ _ h.1)

theorem step_dbInv (env : Env) (w : World) (msg : IpcMessage)
    (h : dbInv w.db)
    (hm : msg.method = some methods.AUTH_SWITCH_ACCOUNT ∨
      msg.method = some methods.AUTH_CALLBACK ∨
      msg.method = some methods.AUTH_DELETE_ACCOUNT) :
    dbInv (handle_message env DbOracle.allOk w msg).world.db := by
  rcases hm with hm | hm | hm
  · rw [dispatch_auth_switch_account env DbOracle.allOk w msg hm]
    exact handle_auth_switch_account_dbInv env w msg h
  · rw [dispatch_auth_callback env DbOracle.allOk w msg hm]
    exact handle_auth_callback_dbInv env w msg h
  · rw [dispatch_auth_delete_account env DbOracle.allOk w msg hm]
    exact handle_auth_delete_account_dbInv env w msg h

/-- C4 (amended). After any sequence of switch-account, delete-account and
authentication-callback requests in which every store write succeeds, at most
one stored account has `is_default = true` (given distinct ids and the
invariant initially). -/
theorem default_account_invariant (env : Env) (w : World) (msgs : List IpcMessage)
    (hnd : accountIdsNodup w.db) (hone : atMostOneDefault w.db)
    (hms : ∀ m ∈ msgs, m.method = some methods.AUTH_SWITCH_ACCOUNT ∨
      m.method = some methods.AUTH_CALLBACK ∨
      m.method = some methods.AUTH_DELETE_ACCOUNT) :
    atMostOneDefault (runMessages env DbOracle.allOk w msgs).db := by
  induction msgs generalizing w with
  | nil => exact hone
  | cons m rest ih =>
    have hstep := step_dbInv env w m ⟨hnd, hone⟩ (hms m (List.mem_cons_self m rest))
    exact ih (handle_message env DbOracle.allOk w m).world hstep.1 hstep.2
      (fun x hx => hms x (List.mem_cons_of_mem m hx))

/-- C4 counterexample: one authentication callback in which the save
succeeds but the clear-all-defaults statement fails leaves two accounts
flagged default, violating the claim as stated (which includes sequences in
which some store writes fail). -/
theorem default_account_invariant_counterexample :
    ¬ atMostOneDefault (runMessages bobEnv clearFailOracle c4World [callbackYMsg]).db := by
  intro hcon
  have h2 : countDefaults (runMessages bobEnv clearFailOracle c4World [callbackYMsg]).db
      = 2 := by rfl
  rw [atMostOneDefault, h2] at hcon
  omega

/-- C4 witness: a concrete switch-account request starting from one stored
default account. -/
theorem default_account_invariant_witness :
    atMostOneDefault (runMessages happyEnv DbOracle.allOk aliceWorld
      [testRequest "w4" "auth.switch_account"
        (some (Json.obj [("account_id", Json.str "alice@mastodon.social")]))]).db :=
  default_account_invariant happyEnv aliceWorld
    [testRequest "w4" "auth.switch_account"
      (some (Json.obj [("account_id", Json.str "alice@mastodon.social")]))]
    (by unfold accountIdsNodup; decide) (by unfold atMostOneDefault countDefaults; decide)
    (by intro m hm; fin_cases hm; exact Or.inl rfl)

/-- C5 (amended). The pending-authorization slot is created (filled) by a
successful `auth.start`; `auth.callback` only reads it and never empties it:
after any `auth.callback` — including one whose token exchange succeeds —
the slot holds exactly what it held before. -/
theorem pending_slot_lifecycle (env : Env) (o : DbOracle) (w : World) (msg : IpcMessage) :
    (msg.method = some methods.AUTH_CALLBACK →
      (handle_message env o w msg).world.pending = w.pending) ∧
    (∀ url r, (MastodonClient.start_auth env w.pending url).1 = Except.ok r →
      ∃ app, (MastodonClient.start_auth env w.pending url).2.1 = some app ∧
        app.instance_url = normalize_url url) := by
  constructor
  · intro hm
    rw [dispatch_auth_callback env o w msg hm]
    unfold handle_auth_callback
    repeat' split
    all_goals (try dsimp only)
    all_goals repeat' split
    all_goals rfl
  · intro url r hok
    unfold MastodonClient.start_auth at hok ⊢
    dsimp only at hok ⊢
    split at hok
    · cases hok
    · split at hok
      · cases hok
      · exact ⟨_, rfl, rfl⟩

/-- C5 counterexample: `auth.start` fills the slot; a subsequent successful
`auth.callback` (token exchange and user fetch both succeed) returns a
success response, yet the slot still holds the very flow `auth.start`
stored — it is not consumed. -/
theorem pending_slot_not_consumed_counterexample :
    (handle_message happyEnv DbOracle.allOk anonWorld startAMsg).world.pending
        = some pendingA ∧
      (handle_message happyEnv DbOracle.allOk
          (handle_message happyEnv DbOracle.allOk anonWorld startAMsg).world
          callbackAMsg).resp.error = none ∧
      (handle_message happyEnv DbOracle.allOk
          (handle_message happyEnv DbOracle.allOk anonWorld startAMsg).world
          callbackAMsg).world.pending = some pendingA :=
  ⟨rfl, rfl, rfl⟩

/-- C5 witness: concrete applications of both halves of the theorem. -/
theorem pending_slot_lifecycle_witness :
    ((handle_message happyEnv DbOracle.allOk mastoPendingWorld callbackNoSlashMsg).world.pending
        = mastoPendingWorld.pending) ∧
      (∃ app, (MastodonClient.start_auth happyEnv anonWorld.pending "https://a.example").2.1
          = some app ∧ app.instance_url = normalize_url "https://a.example") :=
  ⟨(pending_slot_lifecycle happyEnv DbOracle.allOk mastoPendingWorld callbackNoSlashMsg).1 rfl,
   (pending_slot_lifecycle happyEnv DbOracle.allOk anonWorld
      (testRequest "x1" "ping" none)).2 "https://a.example" _ rfl⟩

/-- C6. A completed-authentication callback whose normalized instance URL
differs from the pending flow's instance — or one arriving with no pending
flow — yields an error response, changes nothing (session slots, store and
pending slot all unchanged) and performs no remote call. -/
theorem pending_auth_mismatch (env : Env) (o : DbOracle) (w : World) (msg : IpcMessage)
    (code url : String)
    (hm : msg.method = some methods.AUTH_CALLBACK)
    (hcode : paramStr msg.params "code" = some code)
    (hurl : paramStr msg.params "instance_url" = some url)
    (hpend : (∃ app, w.pending = some app ∧ app.instance_url ≠ normalize_url url) ∨
      w.pending = none) :
    (handle_message env o w msg).resp.error.isSome = true ∧
    (handle_message env o w msg).world = w ∧
    (handle_message env o w msg).calls = [] := by
  rw [dispatch_auth_callback env o w msg hm]
  unfold handle_auth_callback
  rcases hp : msg.params with _ | params
  · rw [hp] at hcode
    cases hcode
  · rw [hp] at hcode hurl
    dsimp only
    have hcode2 : (params.get? "code").bind Json.asStr? = some code := hcode
    have hurl2 : (params.get? "instance_url").bind Json.asStr? = some url := hurl
    rw [hcode2, hurl2]
    dsimp only
    unfold MastodonClient.complete_auth
    rcases hpend with ⟨app, hp2, hne⟩ | hp2
    · rw [hp2]
      dsimp only
      rw [if_pos hne]
      exact ⟨rfl, rfl, rfl⟩
    · rw [hp2]
      exact ⟨rfl, rfl, rfl⟩

/-- C6 witness: a pending flow for `https://a.example` and a callback for
`https://b.example`. -/
theorem pending_auth_mismatch_witness :
    (handle_message happyEnv DbOracle.allOk pendingAWorld callbackBMsg).resp.error.isSome
        = true ∧
      (handle_message happyEnv DbOracle.allOk pendingAWorld callbackBMsg).world
        = pendingAWorld ∧
      (handle_message happyEnv DbOracle.allOk pendingAWorld callbackBMsg).calls = [] :=
  pending_auth_mismatch happyEnv DbOracle.allOk pendingAWorld callbackBMsg
    "code3" "https://b.example" rfl rfl rfl
    (Or.inl ⟨pendingA, rfl, by decide⟩)

/-- C7 (amended). For every completed authentication callback, the stored
account id is `username@D` where `D` is the *raw* `instance_url` request
parameter with the scheme literals removed by substring replacement
(`instanceDomain`), not the normalized instance domain. The id is therefore
stable across scheme variants of the parameter, but a trailing slash (which
normalization would remove) survives into the id. -/
theorem account_id_raw_domain (env : Env) (o : DbOracle) (w : World) (msg : IpcMessage)
    (code url : String) (client : MastodonClient) (user : User)
    (hm : msg.method = some methods.AUTH_CALLBACK)
    (hcode : paramStr msg.params "code" = some code)
    (hurl : paramStr msg.params "instance_url" = some url)
    (hca : (MastodonClient.complete_auth env w.pending url code).1 = Except.ok client)
    (huser : env.getCurrentUser client = Except.ok user) :
    (handle_message env o w msg).world.session.current_account_id =
      some (user.username ++ "@" ++ instanceDomain url) := by
  rw [dispatch_auth_callback env o w msg hm]
  unfold handle_auth_callback
  rcases hp : msg.params with _ | params
  · rw [hp] at hcode
    cases hcode
  · rw [hp] at hcode hurl
    dsimp only
    have hcode2 : (params.get? "code").bind Json.asStr? = some code := hcode
    have hurl2 : (params.get? "instance_url").bind Json.asStr? = some url := hurl
    rw [hcode2, hurl2]
    dsimp only
    split
    · rename_i e calls heq
      have hfst := congrArg Prod.fst heq
      dsimp only at hfst
      rw [hfst] at hca
      cases hca
    · rename_i client2 calls heq
      have hfst := congrArg Prod.fst heq
      dsimp only at hfst
      rw [hca] at hfst
      injection hfst with hclient
      subst hclient
      rw [huser]

/-- C7 counterexample: the same user completing authentication against the
same instance, once written `https://mastodon.social` and once
`https://mastodon.social/` (both pass the normalized pending-flow check),
receives two different account ids — the id is not stable across such
rewritings. -/
theorem account_id_not_normalized_counterexample :
    (handle_message happyEnv DbOracle.allOk mastoPendingWorld
        callbackNoSlashMsg).world.session.current_account_id
        = some "alice@mastodon.social" ∧
      (handle_message happyEnv DbOracle.allOk mastoPendingWorld
          callbackSlashMsg).world.session.current_account_id
        = some "alice@mastodon.social/" ∧
      ("alice@mastodon.social" : String) ≠ "alice@mastodon.social/" :=
  ⟨rfl, rfl, by decide⟩

/-- C7 witness: the amended derivation applied to the trailing-slash callback. -/
theorem account_id_raw_domain_witness :
    (handle_message happyEnv DbOracle.allOk mastoPendingWorld
        callbackSlashMsg).world.session.current_account_id
      = some (aliceUser.username ++ "@" ++ instanceDomain "https://mastodon.social/") :=
  account_id_raw_domain happyEnv DbOracle.allOk mastoPendingWorld callbackSlashMsg
    "code5" "https://mastodon.social/"
    { instance_url := "https://mastodon.social", access_token := "tok-new" } aliceUser
    rfl rfl rfl rfl rfl

/-- C8. If session restore at startup finds a stored default account whose
token fails verification (the read-only `get_current_user` call errors),
`initialize` returns without error and the whole state is unchanged: the
session stays Anonymous and the stored account is not deleted. -/
theorem restore_invalid_token_fallback (env : Env) (o : DbOracle) (w : World)
    (account : StoredAccount) (client : MastodonClient) (e : String)
    (hdef : cacheGetDefaultAccount o w.db = Except.ok (some account))
    (hft : MastodonClient.from_token env account.instance_url account.access_token
      = Except.ok client)
    (hver : env.getCurrentUser client = Except.error e) :
    MessageHandler.initialize env o w = (Except.ok (), w) := by
  unfold MessageHandler.initialize
  rw [hdef]
  dsimp only
  rw [hft]
  dsimp only
  rw [hver]

/-- C8 witness: alice's stored token is rejected by the remote instance; the
process still starts cleanly in the Anonymous state with her account kept. -/
theorem restore_invalid_token_fallback_witness :
    MessageHandler.initialize expiredEnv DbOracle.allOk restoreWorld
      = (Except.ok (), restoreWorld) :=
  restore_invalid_token_fallback expiredEnv DbOracle.allOk restoreWorld aliceAccount
    { instance_url := "https://mastodon.social", access_token := "tok-alice" }
    "401 Unauthorized" rfl rfl rfl

/-- C9. In the per-connection read loop, a frame that fails to parse yields
exactly one synthesized error response with id `"unknown"` and code
PARSE_ERROR (-32700), after which the loop continues with the remaining
frames on the same connection, state untouched. -/
theorem parse_error_frame_continues (env : Env) (o : DbOracle)
    (parse : String → Except String IpcMessage) (w : World)
    (bad : String) (rest : List String) (e : String)
    (hne : strTrim bad ≠ "")
    (hparse : parse (strTrim bad) = Except.error e) :
    clientLoop env o parse w (bad :: rest) =
      (IpcMessage.response_err "unknown"
          (IpcError.new error_codes.PARSE_ERROR ("Failed to parse message: " ++ e))
        :: (clientLoop env o parse w rest).1,
       (clientLoop env o parse w rest).2) := by
  have hpl : processLine env o parse w bad =
      ([IpcMessage.response_err "unknown"
          (IpcError.new error_codes.PARSE_ERROR ("Failed to parse message: " ++ e))], w) := by
    unfold processLine
    rw [if_neg (fun h => hne (eq_of_beq h)), hparse]
  conv_lhs => rw [clientLoop]
  rw [hpl]
  dsimp only
  rcases hcl : clientLoop env o parse w rest with ⟨outs, w2⟩
  rfl

/-- C9 witness: a malformed first frame followed by a well-formed `ping`
frame; the loop emits the synthesized parse error and still answers the
second frame. -/
theorem parse_error_frame_continues_witness :
    clientLoop happyEnv DbOracle.allOk stubParse anonWorld ["bad line", "good"] =
      (IpcMessage.response_err "unknown"
          (IpcError.new error_codes.PARSE_ERROR
            ("Failed to parse message: " ++ "expected value at line 1"))
        :: (clientLoop happyEnv DbOracle.allOk stubParse anonWorld ["good"]).1,
       (clientLoop happyEnv DbOracle.allOk stubParse anonWorld ["good"]).2) :=
  parse_error_frame_continues happyEnv DbOracle.allOk stubParse anonWorld
    "bad line" ["good"] "expected value at line 1" (by decide) rfl

/-- C10. If the auth.callback token exchange succeeds but the follow-up fetch
of the current user fails, the handler returns a *success* response carrying
`error_fetching_user`, sets the session client slot, and leaves
`current_account_id` as `None` (starting from Anonymous) — so a following
`auth.get_accounts` reports `authenticated: true` with
`current_account_id: null`. -/
theorem callback_user_fetch_failure (env : Env) (o : DbOracle) (w : World)
    (msg msg2 : IpcMessage) (code url e : String) (client : MastodonClient)
    (hm : msg.method = some methods.AUTH_CALLBACK)
    (hcode : paramStr msg.params "code" = some code)
    (hurl : paramStr msg.params "instance_url" = some url)
    (hanon : w.session = { client := none, current_account_id := none })
    (hca : (MastodonClient.complete_auth env w.pending url code).1 = Except.ok client)
    (huser : env.getCurrentUser client = Except.error e)
    (hm2 : msg2.method = some methods.AUTH_GET_ACCOUNTS) :
    (handle_message env o w msg).resp = IpcMessage.response_ok msg.id
        (Json.obj [("success", Json.bool true), ("error_fetching_user", Json.str e)]) ∧
      (handle_message env o w msg).world.session.client = some client ∧
      (handle_message env o w msg).world.session.current_account_id = none ∧
      (∃ accs, (handle_message env o (handle_message env o w msg).world msg2).resp.result =
        some (Json.obj [("authenticated", Json.bool true),
          ("current_account_id", Json.null), ("accounts", accs)])) := by
  rw [dispatch_auth_callback env o w msg hm]
  unfold handle_auth_callback
  rcases hp : msg.params with _ | params
  · rw [hp] at hcode
    cases hcode
  · rw [hp] at hcode hurl
    dsimp only
    have hcode2 : (params.get? "code").bind Json.asStr? = some code := hcode
    have hurl2 : (params.get? "instance_url").bind Json.asStr? = some url := hurl
    rw [hcode2, hurl2]
    dsimp only
    split
    · rename_i e2 calls heq
      have hfst := congrArg Prod.fst heq
      dsimp only at hfst
      rw [hfst] at hca
      cases hca
    · rename_i client2 calls heq
      have hfst := congrArg Prod.fst heq
      dsimp only at hfst
      rw [hca] at hfst
      injection hfst with hclient
      subst hclient
      rw [huser]
      dsimp only
      refine ⟨rfl, rfl, ?_, ?_⟩
      · rw [hanon]
      · rw [dispatch_auth_get_accounts env o _ msg2 hm2]
        unfold handle_auth_get_accounts
        rw [hanon]
        exact ⟨_, rfl⟩

/-- C10 witness: a concrete callback against `happyEnv` with a failing user
fetch, followed by a concrete `auth.get_accounts`. -/
theorem callback_user_fetch_failure_witness :
    (handle_message fetchUserFailEnv DbOracle.allOk pendingAWorld callbackAMsg).resp
        = IpcMessage.response_ok "c2"
          (Json.obj [("success", Json.bool true),
            ("error_fetching_user", Json.str "timeout")]) ∧
      (handle_message fetchUserFailEnv DbOracle.allOk pendingAWorld
          callbackAMsg).world.session.client
        = some { instance_url := "https://a.example", access_token := "tok-new" } ∧
      (handle_message fetchUserFailEnv DbOracle.allOk pendingAWorld
          callbackAMsg).world.session.current_account_id = none ∧
      (∃ accs, (handle_message fetchUserFailEnv DbOracle.allOk
          (handle_message fetchUserFailEnv DbOracle.allOk pendingAWorld
            callbackAMsg).world getAccountsMsg).resp.result =
        some (Json.obj [("authenticated", Json.bool true),
          ("current_account_id", Json.null), ("accounts", accs)])) :=
  callback_user_fetch_failure fetchUserFailEnv DbOracle.allOk pendingAWorld
    callbackAMsg getAccountsMsg "code2" "https://a.example" "timeout"
    { instance_url := "https://a.example", access_token := "tok-new" }
    rfl rfl rfl rfl rfl rfl rfl
